import Mathlib

/-!
# go-spacy: the embedded-interpreter bridge (`src/cpp/spacy_wrapper.cpp`)

A shallow embedding of the C++ bridge and of its flat C interface
(`src/include/spacy_wrapper.h`).

* The process state (`python_initialized`, the global `wrapper`, what was
  written to `std::cerr`, the C heap) is an explicit record `State`.
* The embedded interpreter is an external collaborator.  What it answers
  during one call of the interface is a record `Env`; every call of the
  interface takes its own `Env`, so the interpreter may answer differently
  from one call to the next.
* Every call into the interpreter, every acquisition and release of
  `python_mutex` and every access to the global `wrapper` is appended to
  `State.trace`, in program order.
* Pointers are natural numbers, `0` is the null pointer.  The text handed to
  a query is a C string of arbitrary bytes (`CString`), which
  `PyUnicode_FromString` accepts only when it is valid UTF-8.  A C string read
  from the interpreter (`PyUnicode_AsUTF8`) is modelled by its contents; the
  copies the bridge makes with `strdup` and the arrays it makes with `malloc`
  live in an explicit heap, each at its own address.
* A query either returns, or the process dies inside it (`Outcome`): by the
  null dereference in `Py_DECREF(pyText)` when `PyUnicode_FromString` returned
  `NULL`, or by the `exit` that `PyErr_Print` performs on a pending
  `SystemExit`.  `spacy_init` is modelled where it returns: for model names
  the interpreter accepts as strings, and for import and load failures that
  `PyErr_Print` reports and returns from.
* The allocator may fail: `Env.malloc_ok` tells, request by request, whether
  `malloc` and `strdup` succeed.
-/

namespace GoSpacy

/-! ## Records of `spacy_wrapper.h` -/

/-- The C++ record `Token` (field `lemma` is spelled `lemma_` here). -/
structure Token where
  text : String
  lemma_ : String
  pos : String
  tag : String
  dep : String
  is_stop : Bool
  is_punct : Bool
  deriving DecidableEq, Repr, Inhabited

/-- The C++ record `Entity`; `start` and `end` (here `end_`) are C `int`s. -/
structure Entity where
  text : String
  label : String
  start : Int
  end_ : Int
  deriving DecidableEq, Repr, Inhabited

/-- The C record `CToken`: five owned `const char*` and two flags. -/
structure CToken where
  text : Nat
  lemma_ : Nat
  pos : Nat
  tag : Nat
  dep : Nat
  is_stop : Bool
  is_punct : Bool
  deriving DecidableEq, Repr, Inhabited

/-- The C record `TokenArray`. -/
structure TokenArray where
  tokens : Nat
  count : Nat
  deriving DecidableEq, Repr, Inhabited

/-- The C record `CEntity`. -/
structure CEntity where
  text : Nat
  label : Nat
  start : Int
  end_ : Int
  deriving DecidableEq, Repr, Inhabited

/-- The C record `EntityArray`. -/
structure EntityArray where
  entities : Nat
  count : Nat
  deriving DecidableEq, Repr, Inhabited

/-- The C record `SentenceArray`. -/
structure SentenceArray where
  sentences : Nat
  count : Nat
  deriving DecidableEq, Repr, Inhabited

/-! ## The interpreter, seen from the bridge -/

/-- What the attributes of one spaCy token evaluate to: the five strings as
`PyUnicode_AsUTF8` returns them, the two flags as `PyObject_IsTrue` reports
them. -/
structure PyToken where
  text : String
  lemma_ : String
  pos_ : String
  tag_ : String
  dep_ : String
  is_stop : Bool
  is_punct : Bool
  deriving DecidableEq, Repr, Inhabited

/-- What the attributes of one spaCy entity span evaluate to; the offsets are
Python integers, hence unbounded. -/
structure PyEnt where
  text : String
  label_ : String
  start_char : Int
  end_char : Int
  deriving DecidableEq, Repr, Inhabited

/-- What the attribute `text` of one sentence span evaluates to. -/
structure PySpan where
  text : String
  deriving DecidableEq, Repr, Inhabited

/-- The document returned by one call of the model: the items its three
iterators yield before `PyIter_Next` returns `NULL`. -/
structure Doc where
  tokens : List PyToken
  ents : List PyEnt
  sents : List PySpan
  deriving DecidableEq, Repr, Inhabited

/-- A C string as a caller passes it: its bytes (values `1 .. 255`) before the
terminating NUL. -/
abbrev CString := List Nat

/-- UTF-8 validation, as the decoder behind `PyUnicode_FromString` performs it
(RFC 3629: no overlong forms, no surrogates, nothing above U+10FFFF).  `need`
continuation bytes are still expected, the next of them in `lo .. hi`. -/
def validUTF8From (need lo hi : Nat) : CString → Bool
  | [] => decide (need = 0)
  | b :: rest =>
    if need = 0 then
      if b < 0x80 then validUTF8From 0 0x80 0xBF rest
      else if 0xC2 ≤ b ∧ b ≤ 0xDF then validUTF8From 1 0x80 0xBF rest
      else if b = 0xE0 then validUTF8From 2 0xA0 0xBF rest
      else if (0xE1 ≤ b ∧ b ≤ 0xEC) ∨ b = 0xEE ∨ b = 0xEF then
        validUTF8From 2 0x80 0xBF rest
      else if b = 0xED then validUTF8From 2 0x80 0x9F rest
      else if b = 0xF0 then validUTF8From 3 0x90 0xBF rest
      else if 0xF1 ≤ b ∧ b ≤ 0xF3 then validUTF8From 3 0x80 0xBF rest
      else if b = 0xF4 then validUTF8From 3 0x80 0x8F rest
      else false
    else if lo ≤ b ∧ b ≤ hi then validUTF8From (need - 1) 0x80 0xBF rest
    else false

/-- Is the C string valid UTF-8. -/
def validUTF8 (text : CString) : Bool :=
  validUTF8From 0 0x80 0xBF text

/-- The CPython function `PyUnicode_FromString` on the text of a query: the
Python string, given by its UTF-8 bytes, or `NULL` (`none`, with
`UnicodeDecodeError` set) when the bytes are not valid UTF-8. -/
def CString.PyUnicode_FromString (text : CString) : Option CString :=
  if validUTF8 text then some text else none

/-- How a call of a query ends: it returns a value, or the process dies in it
from a null dereference, or the process exits in it. -/
inductive Outcome (α : Type) where
  | returned (value : α)
  | segfault
  | exit
  deriving DecidableEq, Repr

/-- The answers of the interpreter and of the allocator during one call of
the interface. -/
structure Env where
  /-- Does `PyImport_ImportModule("sys")` return non-`NULL`. -/
  import_sys : Bool
  /-- Does `PyObject_GetAttrString(sys, "path")` return non-`NULL`. -/
  sys_path : Bool
  /-- Result of `PyImport_ImportModule("spacy")`, `0` for `NULL`. -/
  import_spacy : Nat
  /-- Result of calling `spacy.load` on a model name, `0` for `NULL`. -/
  load : String → Nat
  /-- Result of calling the model object on a Python string, given by its
  UTF-8 bytes; `none` for `NULL`. -/
  call : Nat → CString → Option Doc
  /-- Result of calling the model object with no argument, which is what
  `PyObject_CallFunctionObjArgs(nlp, NULL, NULL)` does; `none` for `NULL`. -/
  call_noargs : Nat → Option Doc
  /-- Is the exception that is pending when a query member function calls
  `PyErr_Print` a `SystemExit`: `PyErr_Print` then ends the process with `exit`
  instead of returning. -/
  system_exit : Bool
  /-- Does the allocation request with this sequence number succeed. -/
  malloc_ok : Nat → Bool

/-- The functions of the CPython interface the bridge calls. -/
inductive PyCall where
  | Py_Initialize
  | PyImport_ImportModule (name : String)
  | PyErr_Print
  | PyObject_GetAttrString (attr : String)
  | PyUnicode_FromString (s : String)
  /-- The call `PyUnicode_FromString(text.c_str())` of a query member function,
  with the bytes of the text. -/
  | PyUnicode_FromString_text (text : CString)
  | PyList_Append (item : String)
  | PyTuple_Pack
  | PyObject_CallObject
  | PyObject_CallFunctionObjArgs (callable : Nat)
  | PyObject_GetIter
  | PyIter_Next
  | PyUnicode_AsUTF8
  | PyObject_IsTrue
  | PyLong_AsLong
  | Py_DECREF (obj : String)
  deriving DecidableEq, Repr

/-- Observable steps of the bridge. -/
inductive Event where
  /-- A `std::lock_guard` on `python_mutex` is constructed. -/
  | lock
  /-- That `std::lock_guard` is destroyed. -/
  | unlock
  /-- The global `wrapper` is read. -/
  | readWrapper
  /-- The global `wrapper` is written. -/
  | writeWrapper
  /-- A call into the interpreter. -/
  | py (c : PyCall)
  deriving DecidableEq, Repr

/-! ## The C heap -/

/-- What one allocation holds. -/
inductive Block where
  | cstr (s : String)
  | tokens (a : List CToken)
  | entities (a : List CEntity)
  | sentences (a : List Nat)
  deriving DecidableEq, Repr

/-- The C heap.  Cell `k` is the allocation at address `k + 1`; a cell is
`none` once it has been freed. -/
structure Heap where
  cells : List (Option Block)
  /-- How many allocation requests have been made so far. -/
  reqs : Nat
  /-- Non-null pointers that were passed to `free`, in call order. -/
  freed : List Nat
  deriving DecidableEq, Repr

namespace Heap

/-- The C function `malloc`, the block being filled with `b`: a fresh address,
or the null pointer when the request fails. -/
def malloc (ok : Nat → Bool) (b : Block) (h : Heap) : Nat × Heap :=
  if ok h.reqs then
    (h.cells.length + 1,
      { cells := h.cells ++ [some b], reqs := h.reqs + 1, freed := h.freed })
  else
    (0, { cells := h.cells, reqs := h.reqs + 1, freed := h.freed })

/-- The C function `strdup`: an allocation that holds a copy of the string. -/
def strdup (ok : Nat → Bool) (s : String) (h : Heap) : Nat × Heap :=
  h.malloc ok (Block.cstr s)

/-- The live allocation at address `p`, if any. -/
def read (h : Heap) (p : Nat) : Option Block :=
  if p = 0 then none else (h.cells.getD (p - 1) none)

/-- Overwrite the allocation at address `p`. -/
def write (h : Heap) (p : Nat) (b : Block) : Heap :=
  if p = 0 then h else { h with cells := h.cells.set (p - 1) (some b) }

/-- The C function `free`; `free(NULL)` does nothing. -/
def free (h : Heap) (p : Nat) : Heap :=
  if p = 0 then h
  else { h with cells := h.cells.set (p - 1) none, freed := h.freed ++ [p] }

/-- The C string at address `p`, if `p` points to one. -/
def readStr (h : Heap) (p : Nat) : Option String :=
  match h.read p with
  | some (Block.cstr s) => some s
  | _ => none

/-- Assignment to `arr[i]` for the `CToken` array at address `p`. -/
def storeToken (h : Heap) (p i : Nat) (r : CToken) : Heap :=
  match h.read p with
  | some (Block.tokens a) => h.write p (Block.tokens (a.set i r))
  | _ => h

/-- Assignment to `arr[i]` for the `CEntity` array at address `p`. -/
def storeEntity (h : Heap) (p i : Nat) (r : CEntity) : Heap :=
  match h.read p with
  | some (Block.entities a) => h.write p (Block.entities (a.set i r))
  | _ => h

/-- Assignment to `arr[i]` for the `char*` array at address `p`. -/
def storeSentence (h : Heap) (p i : Nat) (r : Nat) : Heap :=
  match h.read p with
  | some (Block.sentences a) => h.write p (Block.sentences (a.set i r))
  | _ => h

/-- Element `i` of the `CToken` array at address `p`. -/
def tokenAt (h : Heap) (p i : Nat) : Option CToken :=
  match h.read p with
  | some (Block.tokens a) => a.get? i
  | _ => none

/-- Element `i` of the `CEntity` array at address `p`. -/
def entityAt (h : Heap) (p i : Nat) : Option CEntity :=
  match h.read p with
  | some (Block.entities a) => a.get? i
  | _ => none

/-- Element `i` of the `char*` array at address `p`. -/
def sentenceAt (h : Heap) (p i : Nat) : Option Nat :=
  match h.read p with
  | some (Block.sentences a) => a.get? i
  | _ => none

end Heap

/-! ## Process state -/

/-- The C++ class `SpacyWrapper`: its two `PyObject*` members. -/
structure SpacyWrapper where
  nlp : Nat
  spacyModule : Nat
  deriving DecidableEq, Repr, Inhabited

/-- The globals of `spacy_wrapper.cpp` together with what the process has
done so far. -/
structure State where
  /-- The global `python_initialized`. -/
  python_initialized : Bool
  /-- The global `std::unique_ptr<SpacyWrapper> wrapper`. -/
  wrapper : Option SpacyWrapper
  /-- Lines written to `std::cerr`, oldest first. -/
  cerr : List String
  /-- Interpreter calls, lock events and accesses to `wrapper`, oldest first. -/
  trace : List Event
  heap : Heap
  deriving DecidableEq, Repr

namespace State

/-- The state of a freshly started process. -/
def initial : State :=
  { python_initialized := false, wrapper := none, cerr := [], trace := [],
    heap := { cells := [], reqs := 0, freed := [] } }

/-- Append events to the trace. -/
def emit (s : State) (es : List Event) : State :=
  { s with trace := s.trace ++ es }

/-- Write one line to `std::cerr`. -/
def log (s : State) (msg : String) : State :=
  { s with cerr := s.cerr ++ [msg] }

end State

open Event PyCall

/-! ## The class `SpacyWrapper` -/

/-- The block `if (!python_initialized) ...` of the constructor (lines 23-49):
boots the interpreter, sets the flag, then appends the four search paths.  The
result is `some msg` when the block throws `std::runtime_error(msg)`. -/
def SpacyWrapper.startPython (env : Env) (s : State) : Option String × State :=
  if s.python_initialized then (none, s)
  else
    let s1 : State := { s.emit [py Py_Initialize] with python_initialized := true }
    let s2 := s1.emit [py (PyImport_ImportModule "sys")]
    if env.import_sys = false then
      (some "Failed to import sys module", s2.emit [py PyErr_Print])
    else
      let s3 := s2.emit [py (PyObject_GetAttrString "path")]
      if env.sys_path = false then
        (some "Failed to get sys.path", s3.emit [py (Py_DECREF "sys")])
      else
        (none, s3.emit
          [ py (PyUnicode_FromString "."),
            py (PyList_Append "."),
            py (PyUnicode_FromString "./.venv/lib/python3.12/site-packages"),
            py (PyList_Append "./.venv/lib/python3.12/site-packages"),
            py (PyUnicode_FromString "/opt/homebrew/lib/python3.9/site-packages"),
            py (PyList_Append "/opt/homebrew/lib/python3.9/site-packages"),
            py (PyUnicode_FromString "/usr/local/lib/python3.9/site-packages"),
            py (PyList_Append "/usr/local/lib/python3.9/site-packages"),
            py (Py_DECREF "path"),
            py (Py_DECREF "sys") ])

/-- The constructor `SpacyWrapper::SpacyWrapper(const char*)` (named `new`
here, the class name being taken by the record).  The result is
`Except.error msg` when it throws `std::runtime_error(msg)`; the lock guard
is released on both exits. -/
def SpacyWrapper.new (env : Env) (model_name : String) (s : State) :
    Except String SpacyWrapper × State :=
  let s0 := s.emit [lock]
  match SpacyWrapper.startPython env s0 with
  | (some msg, s1) => (Except.error msg, s1.emit [unlock])
  | (none, s1) =>
    let s2 := s1.emit [py (PyImport_ImportModule "spacy")]
    if env.import_spacy = 0 then
      (Except.error "Failed to import spacy", s2.emit [py PyErr_Print, unlock])
    else
      let s3 := s2.emit
        [ py (PyObject_GetAttrString "load"),
          py (PyUnicode_FromString model_name),
          py PyTuple_Pack,
          py PyObject_CallObject,
          py (Py_DECREF "args"),
          py (Py_DECREF "loadFunc") ]
      if env.load model_name = 0 then
        (Except.error "Failed to load spacy model", s3.emit [py PyErr_Print, unlock])
      else
        (Except.ok { nlp := env.load model_name, spacyModule := env.import_spacy },
          s3.emit [unlock])

/-- The destructor `SpacyWrapper::~SpacyWrapper()`.  It constructs no lock
guard. -/
def SpacyWrapper.destroy (w : SpacyWrapper) (s : State) : State :=
  let s1 := if w.nlp ≠ 0 then s.emit [py (Py_DECREF "nlp")] else s
  if w.spacyModule ≠ 0 then s1.emit [py (Py_DECREF "spacyModule")] else s1

/-- The seven attribute reads of one iteration of the loop of
`SpacyWrapper::tokenize` (lines 98-126). -/
def readToken (t : PyToken) : Token :=
  { text := t.text, lemma_ := t.lemma_, pos := t.pos_, tag := t.tag_, dep := t.dep_,
    is_stop := t.is_stop, is_punct := t.is_punct }

/-- The interpreter calls of one iteration of the loop of
`SpacyWrapper::tokenize`: the successful `PyIter_Next`, the seven attribute
reads, the release of the token. -/
def tokenEvents : List Event :=
  [ py PyIter_Next,
    py (PyObject_GetAttrString "text"), py PyUnicode_AsUTF8, py (Py_DECREF "textAttr"),
    py (PyObject_GetAttrString "lemma_"), py PyUnicode_AsUTF8, py (Py_DECREF "lemmaAttr"),
    py (PyObject_GetAttrString "pos_"), py PyUnicode_AsUTF8, py (Py_DECREF "posAttr"),
    py (PyObject_GetAttrString "tag_"), py PyUnicode_AsUTF8, py (Py_DECREF "tagAttr"),
    py (PyObject_GetAttrString "dep_"), py PyUnicode_AsUTF8, py (Py_DECREF "depAttr"),
    py (PyObject_GetAttrString "is_stop"), py PyObject_IsTrue, py (Py_DECREF "isStopAttr"),
    py (PyObject_GetAttrString "is_punct"), py PyObject_IsTrue, py (Py_DECREF "isPunctAttr"),
    py (Py_DECREF "token") ]

/-- The loop `while ((token = PyIter_Next(iterator)))` of
`SpacyWrapper::tokenize`: `items` is what the iterator still yields, `acc` the
vector `tokens` built so far. -/
def tokenizeLoop : List PyToken → List Token → State → List Token × State
  | [], acc, s => (acc, s.emit [py PyIter_Next])
  | t :: rest, acc, s => tokenizeLoop rest (acc ++ [readToken t]) (s.emit tokenEvents)

/-- The statement `doc = PyObject_CallFunctionObjArgs(nlp, pyText, NULL)` of
the three member functions: the argument list ends at the first `NULL`, so a
`NULL` `pyText` makes it a call with no argument. -/
def callModel (env : Env) (nlp : Nat) (pyText : Option CString) : Option Doc :=
  match pyText with
  | some u => env.call nlp u
  | none => env.call_noargs nlp

/-- The member function `SpacyWrapper::tokenize`.  `pyText` is not checked:
when it is `NULL`, whichever `Py_DECREF(pyText)` is reached first dereferences
the null pointer.  `PyErr_Print` writes the traceback to Python's `sys.stderr`
(the event in the trace) and, on `SystemExit`, ends the process.  The lock
guard is released only when the function returns. -/
def SpacyWrapper.tokenize (w : SpacyWrapper) (env : Env) (text : CString) (s : State) :
    Outcome (List Token) × State :=
  let s0 := s.emit
    [lock, py (PyUnicode_FromString_text text), py (PyObject_CallFunctionObjArgs w.nlp)]
  let pyText := CString.PyUnicode_FromString text
  match callModel env w.nlp pyText with
  | none =>
    let s1 := s0.emit [py PyErr_Print]
    if env.system_exit then (Outcome.exit, s1)
    else
      let s2 := s1.emit [py (Py_DECREF "pyText")]
      match pyText with
      | none => (Outcome.segfault, s2)
      | some _ => (Outcome.returned [], s2.emit [unlock])
  | some doc =>
    let r := tokenizeLoop doc.tokens [] (s0.emit [py PyObject_GetIter])
    let s1 := r.2.emit
      [py (Py_DECREF "iterator"), py (Py_DECREF "doc"), py (Py_DECREF "pyText")]
    match pyText with
    | none => (Outcome.segfault, s1)
    | some _ => (Outcome.returned r.1, s1.emit [unlock])

/-- The width of the C type `long` (LP64 platforms). -/
def LONG_BITS : Nat := 64

/-- The width of the C type `int`. -/
def INT_BITS : Nat := 32

/-- The CPython function `PyLong_AsLong`: the value when it fits in a `long`,
otherwise `-1` (with `OverflowError` set). -/
def PyLong_AsLong (v : Int) : Int :=
  if -(2 ^ (LONG_BITS - 1) : Int) ≤ v ∧ v < (2 ^ (LONG_BITS - 1) : Int) then v else -1

/-- The conversion of a `long` to an `int`, as in the assignments
`e.start = PyLong_AsLong(...)`: reduction modulo `2 ^ 32` into the range of
`int`. -/
def longToInt (v : Int) : Int :=
  (v + 2 ^ (INT_BITS - 1)) % 2 ^ INT_BITS - 2 ^ (INT_BITS - 1)

/-- The four attribute reads of one iteration of the loop of
`SpacyWrapper::extractEntities` (lines 157-173). -/
def readEntity (e : PyEnt) : Entity :=
  { text := e.text, label := e.label_,
    start := longToInt (PyLong_AsLong e.start_char),
    end_ := longToInt (PyLong_AsLong e.end_char) }

/-- The interpreter calls of one iteration of the loop of
`SpacyWrapper::extractEntities`. -/
def entityEvents : List Event :=
  [ py PyIter_Next,
    py (PyObject_GetAttrString "text"), py PyUnicode_AsUTF8, py (Py_DECREF "textAttr"),
    py (PyObject_GetAttrString "label_"), py PyUnicode_AsUTF8, py (Py_DECREF "labelAttr"),
    py (PyObject_GetAttrString "start_char"), py PyCall.PyLong_AsLong,
    py (Py_DECREF "startAttr"),
    py (PyObject_GetAttrString "end_char"), py PyCall.PyLong_AsLong,
    py (Py_DECREF "endAttr"),
    py (Py_DECREF "ent") ]

/-- The loop `while ((ent = PyIter_Next(iterator)))` of
`SpacyWrapper::extractEntities`. -/
def entitiesLoop : List PyEnt → List Entity → State → List Entity × State
  | [], acc, s => (acc, s.emit [py PyIter_Next])
  | e :: rest, acc, s => entitiesLoop rest (acc ++ [readEntity e]) (s.emit entityEvents)

/-- The member function `SpacyWrapper::extractEntities`; `pyText` and
`PyErr_Print` as in `SpacyWrapper::tokenize`. -/
def SpacyWrapper.extractEntities (w : SpacyWrapper) (env : Env) (text : CString)
    (s : State) : Outcome (List Entity) × State :=
  let s0 := s.emit
    [lock, py (PyUnicode_FromString_text text), py (PyObject_CallFunctionObjArgs w.nlp)]
  let pyText := CString.PyUnicode_FromString text
  match callModel env w.nlp pyText with
  | none =>
    let s1 := s0.emit [py PyErr_Print]
    if env.system_exit then (Outcome.exit, s1)
    else
      let s2 := s1.emit [py (Py_DECREF "pyText")]
      match pyText with
      | none => (Outcome.segfault, s2)
      | some _ => (Outcome.returned [], s2.emit [unlock])
  | some doc =>
    let r := entitiesLoop doc.ents []
      (s0.emit [py (PyObject_GetAttrString "ents"), py PyObject_GetIter])
    let s1 := r.2.emit
      [ py (Py_DECREF "iterator"), py (Py_DECREF "ents"), py (Py_DECREF "doc"),
        py (Py_DECREF "pyText") ]
    match pyText with
    | none => (Outcome.segfault, s1)
    | some _ => (Outcome.returned r.1, s1.emit [unlock])

/-- The interpreter calls of one iteration of the loop of
`SpacyWrapper::splitSentences`. -/
def sentenceEvents : List Event :=
  [ py PyIter_Next,
    py (PyObject_GetAttrString "text"), py PyUnicode_AsUTF8, py (Py_DECREF "textAttr"),
    py (Py_DECREF "sent") ]

/-- The loop `while ((sent = PyIter_Next(iterator)))` of
`SpacyWrapper::splitSentences`. -/
def sentencesLoop : List PySpan → List String → State → List String × State
  | [], acc, s => (acc, s.emit [py PyIter_Next])
  | x :: rest, acc, s => sentencesLoop rest (acc ++ [x.text]) (s.emit sentenceEvents)

/-- The member function `SpacyWrapper::splitSentences`; `pyText` and
`PyErr_Print` as in `SpacyWrapper::tokenize`. -/
def SpacyWrapper.splitSentences (w : SpacyWrapper) (env : Env) (text : CString)
    (s : State) : Outcome (List String) × State :=
  let s0 := s.emit
    [lock, py (PyUnicode_FromString_text text), py (PyObject_CallFunctionObjArgs w.nlp)]
  let pyText := CString.PyUnicode_FromString text
  match callModel env w.nlp pyText with
  | none =>
    let s1 := s0.emit [py PyErr_Print]
    if env.system_exit then (Outcome.exit, s1)
    else
      let s2 := s1.emit [py (Py_DECREF "pyText")]
      match pyText with
      | none => (Outcome.segfault, s2)
      | some _ => (Outcome.returned [], s2.emit [unlock])
  | some doc =>
    let r := sentencesLoop doc.sents []
      (s0.emit [py (PyObject_GetAttrString "sents"), py PyObject_GetIter])
    let s1 := r.2.emit
      [ py (Py_DECREF "iterator"), py (Py_DECREF "sents"), py (Py_DECREF "doc"),
        py (Py_DECREF "pyText") ]
    match pyText with
    | none => (Outcome.segfault, s1)
    | some _ => (Outcome.returned r.1, s1.emit [unlock])

/-! ## The exported functions -/

/-- The exported function `spacy_init`; `model_name = none` is the null
pointer.  On success the move assignment to the global `wrapper` destroys
the previously owned object after the new one has been built. -/
def spacy_init (env : Env) (model_name : Option String) (s : State) : Int × State :=
  match model_name with
  | none => (-1, s.log "Error: model_name is null or empty")
  | some name =>
    if name.length = 0 then (-1, s.log "Error: model_name is null or empty")
    else
      match SpacyWrapper.new env name s with
      | (Except.ok w, s1) =>
        let s2 := s1.emit [writeWrapper]
        let s3 := match s2.wrapper with
          | some old => old.destroy s2
          | none => s2
        (0, { s3 with wrapper := some w })
      | (Except.error msg, s1) => (-1, s1.log ("Error initializing Spacy: " ++ msg))

/-- The exported function `spacy_cleanup`: `wrapper.reset()`. -/
def spacy_cleanup (s : State) : State :=
  let s1 := s.emit [writeWrapper]
  match s1.wrapper with
  | some old => { old.destroy s1 with wrapper := none }
  | none => s1

/-- The loop `for (size_t i = 0; i < tokens.size(); ++i)` of `spacy_tokenize`
(lines 269-277), entered at index `i` with the tokens from index `i` on still
to be copied into the array at address `p`. -/
def fillTokens (ok : Nat → Bool) (p : Nat) : List Token → Nat → Heap → Heap
  | [], _, h => h
  | t :: rest, i, h =>
    let r1 := h.strdup ok t.text
    let r2 := r1.2.strdup ok t.lemma_
    let r3 := r2.2.strdup ok t.pos
    let r4 := r3.2.strdup ok t.tag
    let r5 := r4.2.strdup ok t.dep
    fillTokens ok p rest (i + 1)
      (r5.2.storeToken p i
        { text := r1.1, lemma_ := r2.1, pos := r3.1, tag := r4.1, dep := r5.1,
          is_stop := t.is_stop, is_punct := t.is_punct })

/-- The exported function `spacy_tokenize`; `text = none` is the null pointer.
When the process dies inside the member function nothing is returned. -/
def spacy_tokenize (env : Env) (text : Option CString) (s : State) :
    Outcome TokenArray × State :=
  let result : TokenArray := { tokens := 0, count := 0 }
  let s0 := s.emit [readWrapper]
  match s0.wrapper with
  | none => (Outcome.returned result, s0.log "Error: Spacy not initialized")
  | some w =>
    match text with
    | none => (Outcome.returned result, s0)
    | some text =>
      match w.tokenize env text (s0.emit [readWrapper]) with
      | (Outcome.segfault, s1) => (Outcome.segfault, s1)
      | (Outcome.exit, s1) => (Outcome.exit, s1)
      | (Outcome.returned tokens, s1) =>
        if tokens.isEmpty then (Outcome.returned result, s1)
        else
          let m := s1.heap.malloc env.malloc_ok
            (Block.tokens (List.replicate tokens.length default))
          if m.1 = 0 then
            (Outcome.returned result,
              { s1 with heap := m.2 }.log "Error: Failed to allocate memory for tokens")
          else
            (Outcome.returned { tokens := m.1, count := tokens.length },
              { s1 with heap := fillTokens env.malloc_ok m.1 tokens 0 m.2 })

/-- The loop `for (size_t i = 0; i < arr->count; ++i)` of `free_token_array`
(lines 284-290), entered at index `i` with `n` iterations to go.  Reading
`arr->tokens[i]` outside a live array is undefined in C; such an iteration
frees nothing here. -/
def freeTokenStrings (p : Nat) : Nat → Nat → Heap → Heap
  | 0, _, h => h
  | n + 1, i, h =>
    match h.tokenAt p i with
    | some r =>
      freeTokenStrings p n (i + 1)
        (((((h.free r.text).free r.lemma_).free r.pos).free r.tag).free r.dep)
    | none => freeTokenStrings p n (i + 1) h

/-- The exported function `free_token_array`; `arr = none` is the null
pointer, the first component of the result is what `*arr` holds afterwards. -/
def free_token_array (arr : Option TokenArray) (h : Heap) : Option TokenArray × Heap :=
  match arr with
  | none => (none, h)
  | some a =>
    if a.tokens ≠ 0 then
      (some { tokens := 0, count := 0 },
        (freeTokenStrings a.tokens a.count 0 h).free a.tokens)
    else (some a, h)

/-- The loop `for (size_t i = 0; i < entities.size(); ++i)` of
`spacy_extract_entities` (lines 322-327). -/
def fillEntities (ok : Nat → Bool) (p : Nat) : List Entity → Nat → Heap → Heap
  | [], _, h => h
  | e :: rest, i, h =>
    let r1 := h.strdup ok e.text
    let r2 := r1.2.strdup ok e.label
    fillEntities ok p rest (i + 1)
      (r2.2.storeEntity p i
        { text := r1.1, label := r2.1, start := e.start, end_ := e.end_ })

/-- The exported function `spacy_extract_entities`; `text = none` is the null pointer.
When the process dies inside the member function nothing is returned. -/
def spacy_extract_entities (env : Env) (text : Option CString) (s : State) :
    Outcome EntityArray × State :=
  let result : EntityArray := { entities := 0, count := 0 }
  let s0 := s.emit [readWrapper]
  match s0.wrapper with
  | none => (Outcome.returned result, s0.log "Error: Spacy not initialized")
  | some w =>
    match text with
    | none => (Outcome.returned result, s0)
    | some text =>
      match w.extractEntities env text (s0.emit [readWrapper]) with
      | (Outcome.segfault, s1) => (Outcome.segfault, s1)
      | (Outcome.exit, s1) => (Outcome.exit, s1)
      | (Outcome.returned entities, s1) =>
        if entities.isEmpty then (Outcome.returned result, s1)
        else
          let m := s1.heap.malloc env.malloc_ok
            (Block.entities (List.replicate entities.length default))
          if m.1 = 0 then
            (Outcome.returned result,
              { s1 with heap := m.2 }.log "Error: Failed to allocate memory for entities")
          else
            (Outcome.returned { entities := m.1, count := entities.length },
              { s1 with heap := fillEntities env.malloc_ok m.1 entities 0 m.2 })

/-- The loop `for (size_t i = 0; i < arr->count; ++i)` of `free_entity_array`
(lines 334-337). -/
def freeEntityStrings (p : Nat) : Nat → Nat → Heap → Heap
  | 0, _, h => h
  | n + 1, i, h =>
    match h.entityAt p i with
    | some r => freeEntityStrings p n (i + 1) ((h.free r.text).free r.label)
    | none => freeEntityStrings p n (i + 1) h

/-- The exported function `free_entity_array`. -/
def free_entity_array (arr : Option EntityArray) (h : Heap) : Option EntityArray × Heap :=
  match arr with
  | none => (none, h)
  | some a =>
    if a.entities ≠ 0 then
      (some { entities := 0, count := 0 },
        (freeEntityStrings a.entities a.count 0 h).free a.entities)
    else (some a, h)

/-- The loop `for (size_t i = 0; i < sentences.size(); ++i)` of
`spacy_split_sentences` (lines 369-371). -/
def fillSentences (ok : Nat → Bool) (p : Nat) : List String → Nat → Heap → Heap
  | [], _, h => h
  | x :: rest, i, h =>
    let r1 := h.strdup ok x
    fillSentences ok p rest (i + 1) (r1.2.storeSentence p i r1.1)

/-- The exported function `spacy_split_sentences`; `text = none` is the null pointer.
When the process dies inside the member function nothing is returned. -/
def spacy_split_sentences (env : Env) (text : Option CString) (s : State) :
    Outcome SentenceArray × State :=
  let result : SentenceArray := { sentences := 0, count := 0 }
  let s0 := s.emit [readWrapper]
  match s0.wrapper with
  | none => (Outcome.returned result, s0.log "Error: Spacy not initialized")
  | some w =>
    match text with
    | none => (Outcome.returned result, s0)
    | some text =>
      match w.splitSentences env text (s0.emit [readWrapper]) with
      | (Outcome.segfault, s1) => (Outcome.segfault, s1)
      | (Outcome.exit, s1) => (Outcome.exit, s1)
      | (Outcome.returned sentences, s1) =>
        if sentences.isEmpty then (Outcome.returned result, s1)
        else
          let m := s1.heap.malloc env.malloc_ok
            (Block.sentences (List.replicate sentences.length 0))
          if m.1 = 0 then
            (Outcome.returned result,
              { s1 with heap := m.2 }.log "Error: Failed to allocate memory for sentences")
          else
            (Outcome.returned { sentences := m.1, count := sentences.length },
              { s1 with heap := fillSentences env.malloc_ok m.1 sentences 0 m.2 })

/-- The loop `for (size_t i = 0; i < arr->count; ++i)` of `free_sentence_array`
(lines 378-380). -/
def freeSentenceStrings (p : Nat) : Nat → Nat → Heap → Heap
  | 0, _, h => h
  | n + 1, i, h =>
    match h.sentenceAt p i with
    | some r => freeSentenceStrings p n (i + 1) (h.free r)
    | none => freeSentenceStrings p n (i + 1) h

/-- The exported function `free_sentence_array`. -/
def free_sentence_array (arr : Option SentenceArray) (h : Heap) :
    Option SentenceArray × Heap :=
  match arr with
  | none => (none, h)
  | some a =>
    if a.sentences ≠ 0 then
      (some { sentences := 0, count := 0 },
        (freeSentenceStrings a.sentences a.count 0 h).free a.sentences)
    else (some a, h)

/-! ## Sequences of calls -/

/-- One call of the session interface. -/
inductive Op where
  | init (model_name : Option String)
  | cleanup
  | tokenize (text : Option CString)
  | extract_entities (text : Option CString)
  | split_sentences (text : Option CString)
  deriving DecidableEq, Repr

/-- The state after one call, the interpreter answering as `env` says. -/
def step (env : Env) (op : Op) (s : State) : State :=
  match op with
  | Op.init name => (spacy_init env name s).2
  | Op.cleanup => spacy_cleanup s
  | Op.tokenize text => (spacy_tokenize env text s).2
  | Op.extract_entities text => (spacy_extract_entities env text s).2
  | Op.split_sentences text => (spacy_split_sentences env text s).2

/-- The state after a sequence of calls, each with its own interpreter
answers.  A query in which the process dies is the last call of a real run;
the sequence is not cut there, so whatever holds of every sequence holds of the
real ones. -/
def run : List (Env × Op) → State → State
  | [], s => s
  | (env, op) :: rest, s => run rest (step env op s)

/-! ## Observations on a trace -/

/-- How many times the interpreter was booted. -/
def bootCount (tr : List Event) : Nat :=
  tr.count (py Py_Initialize)

/-- The search paths appended to `sys.path`, in order. -/
def appendedPaths : List Event → List String
  | [] => []
  | py (PyList_Append item) :: rest => item :: appendedPaths rest
  | _ :: rest => appendedPaths rest

/-- The calls into the interpreter, in order. -/
def pyCalls : List Event → List PyCall
  | [] => []
  | py c :: rest => c :: pyCalls rest
  | _ :: rest => pyCalls rest

/-- The fixed list of fallback search paths: the current directory, then the
installation paths. -/
def fallbackPaths : List String :=
  [ ".", "./.venv/lib/python3.12/site-packages",
    "/opt/homebrew/lib/python3.9/site-packages",
    "/usr/local/lib/python3.9/site-packages" ]

/-- Does every interpreter call and every access to the global `wrapper` in
the trace happen while `python_mutex` is held; `held` tells whether the lock
is held when the trace starts. -/
def lockDiscipline : Bool → List Event → Bool
  | _, [] => true
  | _, lock :: rest => lockDiscipline true rest
  | _, unlock :: rest => lockDiscipline false rest
  | held, _ :: rest => held && lockDiscipline held rest

/-- Does every interpreter call in the trace happen while `python_mutex` is
held. -/
def pyUnderLock : Bool → List Event → Bool
  | _, [] => true
  | _, lock :: rest => pyUnderLock true rest
  | _, unlock :: rest => pyUnderLock false rest
  | held, py _ :: rest => held && pyUnderLock held rest
  | held, _ :: rest => pyUnderLock held rest

/-! ## Concrete interpreters and inputs used for evaluation -/

/-- The bytes of a string of ASCII characters. -/
def ascii (s : String) : CString :=
  s.toList.map Char.toNat

/-- The sample sentence of the specification. -/
def sampleText : CString := ascii "Apple is looking at buying U.K. startup."

/-- A text that is not valid UTF-8: the single byte `0xFF`. -/
def badText : CString := [0xFF]

/-- A document with two tokens, one entity and one sentence. -/
def sampleDoc : Doc :=
  { tokens :=
      [ { text := "Apple", lemma_ := "Apple", pos_ := "PROPN", tag_ := "NNP",
          dep_ := "nsubj", is_stop := false, is_punct := false },
        { text := "is", lemma_ := "be", pos_ := "AUX", tag_ := "VBZ",
          dep_ := "aux", is_stop := true, is_punct := false } ],
    ents := [ { text := "Apple", label_ := "ORG", start_char := 0, end_char := 5 } ],
    sents := [ { text := "Apple is." } ] }

/-- An interpreter in which everything succeeds and the model answers
`sampleDoc` for every text; called with no argument the model fails (a
`TypeError`). -/
def goodEnv : Env :=
  { import_sys := true, sys_path := true, import_spacy := 7, load := fun _ => 9,
    call := fun _ _ => some sampleDoc, call_noargs := fun _ => none,
    system_exit := false, malloc_ok := fun _ => true }

/-- An interpreter in which the module `sys` cannot be imported. -/
def noSysEnv : Env :=
  { goodEnv with import_sys := false }

/-- An interpreter in which `spacy.load` fails for every model name. -/
def noModelEnv : Env :=
  { goodEnv with load := fun _ => 0 }

/-- An interpreter whose model call fails. -/
def failingCallEnv : Env :=
  { goodEnv with call := fun _ _ => none }

/-- An interpreter whose model reports an entity that starts at character
`2 ^ 31`. -/
def farEntityEnv : Env :=
  { goodEnv with
    call := fun _ _ => some
      { tokens := [],
        ents := [ { text := "x", label_ := "ORG", start_char := 2147483648,
                    end_char := 2147483649 } ],
        sents := [] } }

/-- The state after a successful `spacy_init("en_core_web_sm")` in a fresh
process. -/
def readyState : State :=
  (spacy_init goodEnv (some "en_core_web_sm") State.initial).2

/-! ## Auxiliary definitions for the proofs -/

/-- The events of a loop over an iterator that yields `n` items: `n` times the
body, then the `PyIter_Next` that returns `NULL`. -/
def loopEvents (body : List Event) : Nat → List Event
  | 0 => [py PyIter_Next]
  | n + 1 => body ++ loopEvents body n

/-- A list of events neither boots the interpreter nor appends a search
path. -/
def HostFree (es : List Event) : Prop :=
  bootCount es = 0 ∧ appendedPaths es = []

/-- Does a call of `spacy_init` get past the check of the model name. -/
def reachesHost : Option String → Bool
  | some name => decide (name.length ≠ 0)
  | none => false

/-- The record `c` holds, in heap `h`, owned copies of the five strings of
`t`, and the two flags of `t`. -/
def Heap.holdsToken (h : Heap) (c : CToken) (t : Token) : Prop :=
  h.readStr c.text = some t.text ∧ h.readStr c.lemma_ = some t.lemma_ ∧
  h.readStr c.pos = some t.pos ∧ h.readStr c.tag = some t.tag ∧
  h.readStr c.dep = some t.dep ∧ c.is_stop = t.is_stop ∧ c.is_punct = t.is_punct

/-- The record `c` holds, in heap `h`, owned copies of the two strings of
`e`, and the two offsets of `e`. -/
def Heap.holdsEntity (h : Heap) (c : CEntity) (e : Entity) : Prop :=
  h.readStr c.text = some e.text ∧ h.readStr c.label = some e.label ∧
  c.start = e.start ∧ c.end_ = e.end_

/-- Does a call get past the check of the model name in `spacy_init`, and so
reach the interpreter start-up code of the constructor. -/
def Op.reachesHost : Op → Bool
  | Op.init name => GoSpacy.reachesHost name
  | _ => false

/-- Whether a session exists after the calls `calls` made from state `s`, told
from the calls and their results alone: `before` says whether one existed
before them; a `spacy_init` that returns `0` opens a session, a `spacy_init`
that fails changes nothing, `spacy_cleanup` closes the session. -/
def sessionExists : List (Env × Op) → State → Bool → Bool
  | [], _, before => before
  | (env, op) :: rest, s, before =>
    sessionExists rest (step env op s)
      (match op with
        | Op.cleanup => false
        | Op.init name => if (spacy_init env name s).1 = 0 then true else before
        | _ => before)

/-- What holds of the host in every reachable state: the flag is set exactly
when the trace holds one boot, there is never a second boot, and the paths
appended so far are none or the fixed list. -/
def HostInv (s : State) : Prop :=
  (s.python_initialized = true → bootCount s.trace = 1) ∧
  (s.python_initialized = false → bootCount s.trace = 0 ∧ appendedPaths s.trace = []) ∧
  (appendedPaths s.trace = [] ∨ appendedPaths s.trace = fallbackPaths)

/-! ## Basic facts about the state and the trace observations -/

namespace State

@[simp]
theorem emit_python_initialized (s : State) (es : List Event) :
    (s.emit es).python_initialized = s.python_initialized := rfl

@[simp]
theorem emit_wrapper (s : State) (es : List Event) : (s.emit es).wrapper = s.wrapper := rfl

@[simp]
theorem emit_cerr (s : State) (es : List Event) : (s.emit es).cerr = s.cerr := rfl

@[simp]
theorem emit_heap (s : State) (es : List Event) : (s.emit es).heap = s.heap := rfl

@[simp]
theorem emit_trace (s : State) (es : List Event) : (s.emit es).trace = s.trace ++ es := rfl

@[simp]
theorem log_python_initialized (s : State) (m : String) :
    (s.log m).python_initialized = s.python_initialized := rfl

@[simp]
theorem log_wrapper (s : State) (m : String) : (s.log m).wrapper = s.wrapper := rfl

@[simp]
theorem log_cerr (s : State) (m : String) : (s.log m).cerr = s.cerr ++ [m] := rfl

@[simp]
theorem log_heap (s : State) (m : String) : (s.log m).heap = s.heap := rfl

@[simp]
theorem log_trace (s : State) (m : String) : (s.log m).trace = s.trace := rfl

theorem emit_emit (s : State) (a b : List Event) : (s.emit a).emit b = s.emit (a ++ b) := by
  simp [State.emit, List.append_assoc]

end State

theorem bootCount_append (a b : List Event) :
    bootCount (a ++ b) = bootCount a + bootCount b := by
  simp [bootCount, List.count_append]

theorem appendedPaths_append (a b : List Event) :
    appendedPaths (a ++ b) = appendedPaths a ++ appendedPaths b := by
  induction a with
  | nil => simp [appendedPaths]
  | cons e rest ih =>
    cases e with
    | py c => cases c <;> simp [appendedPaths, ih]
    | _ => simp [appendedPaths, ih]

theorem pyCalls_append (a b : List Event) : pyCalls (a ++ b) = pyCalls a ++ pyCalls b := by
  induction a with
  | nil => simp [pyCalls]
  | cons e rest ih => cases e <;> simp [pyCalls, ih]

theorem tokenizeLoop_eq (items : List PyToken) (acc : List Token) (s : State) :
    tokenizeLoop items acc s
      = (acc ++ items.map readToken, s.emit (loopEvents tokenEvents items.length)) := by
  induction items generalizing acc s with
  | nil => simp [tokenizeLoop, loopEvents]
  | cons t rest ih =>
    simp [tokenizeLoop, loopEvents, ih, State.emit_emit, List.append_assoc]

theorem entitiesLoop_eq (items : List PyEnt) (acc : List Entity) (s : State) :
    entitiesLoop items acc s
      = (acc ++ items.map readEntity, s.emit (loopEvents entityEvents items.length)) := by
  induction items generalizing acc s with
  | nil => simp [entitiesLoop, loopEvents]
  | cons t rest ih =>
    simp [entitiesLoop, loopEvents, ih, State.emit_emit, List.append_assoc]

theorem sentencesLoop_eq (items : List PySpan) (acc : List String) (s : State) :
    sentencesLoop items acc s
      = (acc ++ items.map PySpan.text, s.emit (loopEvents sentenceEvents items.length)) := by
  induction items generalizing acc s with
  | nil => simp [sentencesLoop, loopEvents]
  | cons t rest ih =>
    simp [sentencesLoop, loopEvents, ih, State.emit_emit, List.append_assoc]

theorem HostFree.append {a b : List Event} (ha : HostFree a) (hb : HostFree b) :
    HostFree (a ++ b) := by
  unfold HostFree at *
  rw [bootCount_append, appendedPaths_append, ha.1, ha.2, hb.1, hb.2]
  simp

theorem hostFree_loopEvents (body : List Event) (hb : HostFree body) (n : Nat) :
    HostFree (loopEvents body n) := by
  induction n with
  | zero => simp [HostFree, loopEvents, bootCount, appendedPaths]
  | succ n ih => exact hb.append ih

theorem hostFree_tokenEvents : HostFree tokenEvents := ⟨by decide, by rfl⟩

theorem hostFree_entityEvents : HostFree entityEvents := ⟨by decide, by rfl⟩

theorem hostFree_sentenceEvents : HostFree sentenceEvents := ⟨by decide, by rfl⟩

theorem hostFree_append_iff (a b : List Event) :
    HostFree (a ++ b) ↔ HostFree a ∧ HostFree b := by
  unfold HostFree
  rw [bootCount_append, appendedPaths_append]
  constructor
  · rintro ⟨h1, h2⟩
    exact ⟨⟨by omega, (List.append_eq_nil.mp h2).1⟩, by omega, (List.append_eq_nil.mp h2).2⟩
  · rintro ⟨⟨h1, h2⟩, h3, h4⟩
    exact ⟨by omega, by rw [h2, h4]; rfl⟩

/-- The member function `SpacyWrapper::tokenize` only extends the trace, and
not by a boot or a path append, however it ends. -/
theorem tokenize_snd (w : SpacyWrapper) (env : Env) (text : CString) (s : State) :
    ∃ es, (w.tokenize env text s).2 = s.emit es ∧ HostFree es := by
  have hl := fun n => hostFree_loopEvents _ hostFree_tokenEvents n
  unfold SpacyWrapper.tokenize
  dsimp only
  generalize callModel env w.nlp (CString.PyUnicode_FromString text) = d
  generalize CString.PyUnicode_FromString text = p
  cases d <;> cases p <;> cases env.system_exit <;>
    simp only [tokenizeLoop_eq, State.emit_emit, Bool.false_eq_true, if_true, if_false] <;>
    refine ⟨_, rfl, ?_⟩ <;>
    simp only [hostFree_append_iff, hl, and_true, true_and] <;>
    simp [HostFree, bootCount, appendedPaths]

/-- On a text that is valid UTF-8, `SpacyWrapper::tokenize` returns the tokens
of the document, or the empty vector when the model call fails, unless
`PyErr_Print` ends the process. -/
theorem tokenize_fst (w : SpacyWrapper) (env : Env) (text : CString) (s : State)
    (hv : validUTF8 text = true) :
    (w.tokenize env text s).1
      = match env.call w.nlp text with
        | none => if env.system_exit = true then Outcome.exit else Outcome.returned []
        | some doc => Outcome.returned (doc.tokens.map readToken) := by
  unfold SpacyWrapper.tokenize
  simp only [CString.PyUnicode_FromString, hv, if_true, callModel]
  cases env.call w.nlp text with
  | none => cases env.system_exit <;> simp
  | some doc => simp [tokenizeLoop_eq]

/-- On a text that is not valid UTF-8, `SpacyWrapper::tokenize` does not
return: the process dies in `Py_DECREF(pyText)`, unless `PyErr_Print` has
ended it before. -/
theorem tokenize_invalid (w : SpacyWrapper) (env : Env) (text : CString) (s : State)
    (hv : validUTF8 text = false) :
    (w.tokenize env text s).1
      = if env.call_noargs w.nlp = none ∧ env.system_exit = true then Outcome.exit
        else Outcome.segfault := by
  unfold SpacyWrapper.tokenize
  simp only [CString.PyUnicode_FromString, hv, Bool.false_eq_true, if_false, callModel]
  cases env.call_noargs w.nlp with
  | none => cases env.system_exit <;> simp
  | some doc => simp

/-- The member function `SpacyWrapper::extractEntities` only extends the
trace, and not by a boot or a path append, however it ends. -/
theorem extractEntities_snd (w : SpacyWrapper) (env : Env) (text : CString) (s : State) :
    ∃ es, (w.extractEntities env text s).2 = s.emit es ∧ HostFree es := by
  have hl := fun n => hostFree_loopEvents _ hostFree_entityEvents n
  unfold SpacyWrapper.extractEntities
  dsimp only
  generalize callModel env w.nlp (CString.PyUnicode_FromString text) = d
  generalize CString.PyUnicode_FromString text = p
  cases d <;> cases p <;> cases env.system_exit <;>
    simp only [entitiesLoop_eq, State.emit_emit, Bool.false_eq_true, if_true, if_false] <;>
    refine ⟨_, rfl, ?_⟩ <;>
    simp only [hostFree_append_iff, hl, and_true, true_and] <;>
    simp [HostFree, bootCount, appendedPaths]

/-- On a text that is valid UTF-8, `SpacyWrapper::extractEntities` returns the
entities of the document, or the empty vector when the model call fails,
unless `PyErr_Print` ends the process. -/
theorem extractEntities_fst (w : SpacyWrapper) (env : Env) (text : CString) (s : State)
    (hv : validUTF8 text = true) :
    (w.extractEntities env text s).1
      = match env.call w.nlp text with
        | none => if env.system_exit = true then Outcome.exit else Outcome.returned []
        | some doc => Outcome.returned (doc.ents.map readEntity) := by
  unfold SpacyWrapper.extractEntities
  simp only [CString.PyUnicode_FromString, hv, if_true, callModel]
  cases env.call w.nlp text with
  | none => cases env.system_exit <;> simp
  | some doc => simp [entitiesLoop_eq]

/-- On a text that is not valid UTF-8, `SpacyWrapper::extractEntities` does
not return. -/
theorem extractEntities_invalid (w : SpacyWrapper) (env : Env) (text : CString) (s : State)
    (hv : validUTF8 text = false) :
    (w.extractEntities env text s).1
      = if env.call_noargs w.nlp = none ∧ env.system_exit = true then Outcome.exit
        else Outcome.segfault := by
  unfold SpacyWrapper.extractEntities
  simp only [CString.PyUnicode_FromString, hv, Bool.false_eq_true, if_false, callModel]
  cases env.call_noargs w.nlp with
  | none => cases env.system_exit <;> simp
  | some doc => simp

/-- The member function `SpacyWrapper::splitSentences` only extends the
trace, and not by a boot or a path append, however it ends. -/
theorem splitSentences_snd (w : SpacyWrapper) (env : Env) (text : CString) (s : State) :
    ∃ es, (w.splitSentences env text s).2 = s.emit es ∧ HostFree es := by
  have hl := fun n => hostFree_loopEvents _ hostFree_sentenceEvents n
  unfold SpacyWrapper.splitSentences
  dsimp only
  generalize callModel env w.nlp (CString.PyUnicode_FromString text) = d
  generalize CString.PyUnicode_FromString text = p
  cases d <;> cases p <;> cases env.system_exit <;>
    simp only [sentencesLoop_eq, State.emit_emit, Bool.false_eq_true, if_true, if_false] <;>
    refine ⟨_, rfl, ?_⟩ <;>
    simp only [hostFree_append_iff, hl, and_true, true_and] <;>
    simp [HostFree, bootCount, appendedPaths]

/-- On a text that is valid UTF-8, `SpacyWrapper::splitSentences` returns the
sentences of the document, or the empty vector when the model call fails,
unless `PyErr_Print` ends the process. -/
theorem splitSentences_fst (w : SpacyWrapper) (env : Env) (text : CString) (s : State)
    (hv : validUTF8 text = true) :
    (w.splitSentences env text s).1
      = match env.call w.nlp text with
        | none => if env.system_exit = true then Outcome.exit else Outcome.returned []
        | some doc => Outcome.returned (doc.sents.map PySpan.text) := by
  unfold SpacyWrapper.splitSentences
  simp only [CString.PyUnicode_FromString, hv, if_true, callModel]
  cases env.call w.nlp text with
  | none => cases env.system_exit <;> simp
  | some doc => simp [sentencesLoop_eq]

/-- On a text that is not valid UTF-8, `SpacyWrapper::splitSentences` does not
return. -/
theorem splitSentences_invalid (w : SpacyWrapper) (env : Env) (text : CString) (s : State)
    (hv : validUTF8 text = false) :
    (w.splitSentences env text s).1
      = if env.call_noargs w.nlp = none ∧ env.system_exit = true then Outcome.exit
        else Outcome.segfault := by
  unfold SpacyWrapper.splitSentences
  simp only [CString.PyUnicode_FromString, hv, Bool.false_eq_true, if_false, callModel]
  cases env.call_noargs w.nlp with
  | none => cases env.system_exit <;> simp
  | some doc => simp

theorem destroy_eq (w : SpacyWrapper) (s : State) :
    ∃ es, w.destroy s = s.emit es ∧ HostFree es := by
  unfold SpacyWrapper.destroy
  by_cases h1 : w.nlp = 0 <;> by_cases h2 : w.spacyModule = 0 <;>
    simp only [h1, h2, ne_eq, not_true_eq_false, not_false_eq_true, if_true, if_false,
      State.emit_emit]
  · exact ⟨[], by simp [State.emit], by simp [HostFree, bootCount, appendedPaths]⟩
  · exact ⟨_, rfl, by simp [HostFree, bootCount, appendedPaths]⟩
  · exact ⟨_, rfl, by simp [HostFree, bootCount, appendedPaths]⟩
  · exact ⟨_, rfl, by simp [HostFree, bootCount, appendedPaths]⟩

theorem startPython_fields (env : Env) (s : State) :
    (SpacyWrapper.startPython env s).2.python_initialized = true ∧
    (SpacyWrapper.startPython env s).2.wrapper = s.wrapper ∧
    (SpacyWrapper.startPython env s).2.cerr = s.cerr ∧
    (SpacyWrapper.startPython env s).2.heap = s.heap := by
  unfold SpacyWrapper.startPython
  split_ifs with h1 h2 h3 <;> simp_all [State.emit]

theorem startPython_boot (env : Env) (s : State) :
    bootCount (SpacyWrapper.startPython env s).2.trace
      = bootCount s.trace + (if s.python_initialized = true then 0 else 1) := by
  unfold SpacyWrapper.startPython
  split_ifs with h1 h2 h3 <;> simp [State.emit, bootCount_append] <;> simp [bootCount]

theorem startPython_paths (env : Env) (s : State) :
    appendedPaths (SpacyWrapper.startPython env s).2.trace
      = appendedPaths s.trace ++
        (if s.python_initialized = false ∧ env.import_sys = true ∧ env.sys_path = true
          then fallbackPaths else []) := by
  unfold SpacyWrapper.startPython
  split_ifs with h1 h2 h3 <;>
    simp_all [State.emit, appendedPaths_append, appendedPaths, fallbackPaths]

theorem new_fields (env : Env) (name : String) (s : State) :
    (SpacyWrapper.new env name s).2.python_initialized = true ∧
    (SpacyWrapper.new env name s).2.wrapper = s.wrapper ∧
    (SpacyWrapper.new env name s).2.cerr = s.cerr ∧
    (SpacyWrapper.new env name s).2.heap = s.heap := by
  have h := startPython_fields env (s.emit [lock])
  unfold SpacyWrapper.new
  dsimp only
  generalize SpacyWrapper.startPython env (s.emit [lock]) = r at h ⊢
  obtain ⟨r, s1⟩ := r
  cases r with
  | some msg => simpa using h
  | none =>
    simp only
    split_ifs <;> simpa using h

theorem new_boot (env : Env) (name : String) (s : State) :
    bootCount (SpacyWrapper.new env name s).2.trace
      = bootCount s.trace + (if s.python_initialized = true then 0 else 1) := by
  have h := startPython_boot env (s.emit [lock])
  unfold SpacyWrapper.new
  dsimp only
  generalize SpacyWrapper.startPython env (s.emit [lock]) = r at h ⊢
  obtain ⟨r, s1⟩ := r
  simp only [State.emit_trace, State.emit_python_initialized, bootCount_append] at h
  have e1 : bootCount [lock] = 0 := rfl
  have e2 : bootCount [unlock] = 0 := rfl
  have e3 : bootCount [py PyErr_Print, unlock] = 0 := rfl
  have e4 : bootCount [py (PyImport_ImportModule "spacy")] = 0 := by decide
  have e5 : bootCount [py (PyObject_GetAttrString "load"), py (PyUnicode_FromString name),
      py PyTuple_Pack, py PyObject_CallObject, py (Py_DECREF "args"),
      py (Py_DECREF "loadFunc")] = 0 := by simp [bootCount]
  cases r with
  | some msg => simp only [State.emit_trace, bootCount_append, h, e1, e2]; omega
  | none =>
    dsimp only
    by_cases c1 : env.import_spacy = 0
    · simp only [c1, if_true, State.emit_trace, bootCount_append, h, e1, e3, e4]; omega
    · by_cases c2 : env.load name = 0
      · simp only [c1, c2, if_true, if_false, State.emit_trace, bootCount_append, h, e1,
          e3, e4, e5]
        omega
      · simp only [c1, c2, if_false, State.emit_trace, bootCount_append, h, e1, e2, e4, e5]
        omega

theorem new_paths (env : Env) (name : String) (s : State) :
    appendedPaths (SpacyWrapper.new env name s).2.trace
      = appendedPaths s.trace ++
        (if s.python_initialized = false ∧ env.import_sys = true ∧ env.sys_path = true
          then fallbackPaths else []) := by
  have h := startPython_paths env (s.emit [lock])
  unfold SpacyWrapper.new
  dsimp only
  generalize SpacyWrapper.startPython env (s.emit [lock]) = r at h ⊢
  obtain ⟨r, s1⟩ := r
  simp only [State.emit_trace, State.emit_python_initialized, appendedPaths_append] at h
  have e1 : appendedPaths [lock] = [] := rfl
  have e2 : appendedPaths [unlock] = [] := rfl
  have e3 : appendedPaths [py PyErr_Print, unlock] = [] := rfl
  have e4 : appendedPaths [py (PyImport_ImportModule "spacy")] = [] := rfl
  have e5 : appendedPaths [py (PyObject_GetAttrString "load"), py (PyUnicode_FromString name),
      py PyTuple_Pack, py PyObject_CallObject, py (Py_DECREF "args"),
      py (Py_DECREF "loadFunc")] = [] := rfl
  cases r with
  | some msg =>
    simp only [State.emit_trace, appendedPaths_append, h, e1, e2, List.append_nil]
  | none =>
    dsimp only
    by_cases c1 : env.import_spacy = 0
    · simp only [c1, if_true, State.emit_trace, appendedPaths_append, h, e1, e3, e4,
        List.append_nil]
    · by_cases c2 : env.load name = 0
      · simp only [c1, c2, if_true, if_false, State.emit_trace, appendedPaths_append, h, e1,
          e3, e4, e5, List.append_nil]
      · simp only [c1, c2, if_false, State.emit_trace, appendedPaths_append, h, e1, e2,
          e4, e5, List.append_nil]

/-- A wrapper the constructor returns holds two non-null references. -/
theorem new_ok (env : Env) (name : String) (s : State) (w : SpacyWrapper)
    (h : (SpacyWrapper.new env name s).1 = Except.ok w) :
    w.nlp = env.load name ∧ w.spacyModule = env.import_spacy ∧ w.nlp ≠ 0 ∧
      w.spacyModule ≠ 0 := by
  unfold SpacyWrapper.new at h
  dsimp only at h
  generalize SpacyWrapper.startPython env (s.emit [lock]) = r at h
  obtain ⟨r, s1⟩ := r
  cases r with
  | some msg => simp at h
  | none =>
    simp only at h
    split_ifs at h with h1 h2
    all_goals simp at h
    subst h
    exact ⟨rfl, rfl, h2, h1⟩

theorem spacy_init_reject (env : Env) (name : Option String) (s : State)
    (h : reachesHost name = false) :
    spacy_init env name s = (-1, s.log "Error: model_name is null or empty") := by
  unfold spacy_init
  cases name with
  | none => rfl
  | some n =>
    have hn : n.length = 0 := by simpa [reachesHost] using h
    simp [hn]

theorem spacy_init_wrapper (env : Env) (name : Option String) (s : State) :
    ((spacy_init env name s).1 = -1 ∧ (spacy_init env name s).2.wrapper = s.wrapper) ∨
    ((spacy_init env name s).1 = 0 ∧ reachesHost name = true ∧
      ∃ w, (spacy_init env name s).2.wrapper = some w ∧ w.nlp ≠ 0 ∧
        ∀ n, name = some n → w.nlp = env.load n) := by
  by_cases hr : reachesHost name = false
  · left
    rw [spacy_init_reject env name s hr]
    exact ⟨rfl, rfl⟩
  · cases name with
    | none => simp [reachesHost] at hr
    | some n =>
      have hn : ¬ n.length = 0 := by simpa [reachesHost] using hr
      have hf := new_fields env n s
      have hok := new_ok env n s
      unfold spacy_init
      simp only [hn, if_false]
      generalize SpacyWrapper.new env n s = r at hf hok ⊢
      obtain ⟨r, s1⟩ := r
      cases r with
      | error msg =>
        left
        exact ⟨rfl, by simpa using hf.2.1⟩
      | ok w =>
        right
        refine ⟨rfl, by simpa using hr, w, rfl, (hok w rfl).2.2.1, ?_⟩
        intro n2 h2
        cases h2
        exact (hok w rfl).1

theorem spacy_init_heap (env : Env) (name : Option String) (s : State) :
    (spacy_init env name s).2.heap = s.heap := by
  by_cases hr : reachesHost name = false
  · rw [spacy_init_reject env name s hr]; rfl
  · cases name with
    | none => simp [reachesHost] at hr
    | some n =>
      have hn : ¬ n.length = 0 := by simpa [reachesHost] using hr
      have hf := new_fields env n s
      unfold spacy_init
      simp only [hn, if_false]
      generalize SpacyWrapper.new env n s = r at hf ⊢
      obtain ⟨r, s1⟩ := r
      cases r with
      | error msg => simpa using hf.2.2.2
      | ok w =>
        dsimp only
        cases hw : (s1.emit [writeWrapper]).wrapper with
        | none => simpa using hf.2.2.2
        | some old =>
          obtain ⟨es, he, -⟩ := destroy_eq old (s1.emit [writeWrapper])
          simp only [he]
          simpa using hf.2.2.2

theorem spacy_init_flag (env : Env) (name : Option String) (s : State) :
    (spacy_init env name s).2.python_initialized
      = (s.python_initialized || reachesHost name) := by
  by_cases hr : reachesHost name = false
  · rw [spacy_init_reject env name s hr, hr]; simp
  · cases name with
    | none => simp [reachesHost] at hr
    | some n =>
      have hn : ¬ n.length = 0 := by simpa [reachesHost] using hr
      have hf := new_fields env n s
      unfold spacy_init
      simp only [hn, if_false]
      generalize SpacyWrapper.new env n s = r at hf ⊢
      obtain ⟨r, s1⟩ := r
      have hr1 : reachesHost (some n) = true := by simpa using hr
      cases r with
      | error msg => simpa [hr1] using hf.1
      | ok w =>
        dsimp only
        cases hw : (s1.emit [writeWrapper]).wrapper with
        | none => simpa [hr1] using hf.1
        | some old =>
          obtain ⟨es, he, -⟩ := destroy_eq old (s1.emit [writeWrapper])
          simp only [he]
          simpa [hr1] using hf.1

theorem spacy_init_boot (env : Env) (name : Option String) (s : State) :
    bootCount (spacy_init env name s).2.trace
      = bootCount s.trace +
        (if s.python_initialized = false ∧ reachesHost name = true then 1 else 0) := by
  by_cases hr : reachesHost name = false
  · rw [spacy_init_reject env name s hr, hr]; simp
  · cases name with
    | none => simp [reachesHost] at hr
    | some n =>
      have hn : ¬ n.length = 0 := by simpa [reachesHost] using hr
      have hb := new_boot env n s
      unfold spacy_init
      simp only [hn, if_false]
      generalize SpacyWrapper.new env n s = r at hb ⊢
      obtain ⟨r, s1⟩ := r
      have hr1 : reachesHost (some n) = true := by simpa using hr
      have e1 : bootCount [writeWrapper] = 0 := rfl
      have key : bootCount s1.trace = bootCount s.trace +
          (if s.python_initialized = false ∧ reachesHost (some n) = true then 1 else 0) := by
        rw [hb]
        cases s.python_initialized <;> simp [hr1]
      cases r with
      | error msg => simpa using key
      | ok w =>
        dsimp only
        cases hw : (s1.emit [writeWrapper]).wrapper with
        | none => simp only [State.emit_trace, bootCount_append, e1, key]; omega
        | some old =>
          obtain ⟨es, he, hes⟩ := destroy_eq old (s1.emit [writeWrapper])
          simp only [he, State.emit_trace, bootCount_append, e1, key, hes.1]
          omega

theorem spacy_init_paths (env : Env) (name : Option String) (s : State) :
    appendedPaths (spacy_init env name s).2.trace
      = appendedPaths s.trace ++
        (if s.python_initialized = false ∧ reachesHost name = true ∧
            env.import_sys = true ∧ env.sys_path = true
          then fallbackPaths else []) := by
  by_cases hr : reachesHost name = false
  · rw [spacy_init_reject env name s hr, hr]; simp
  · cases name with
    | none => simp [reachesHost] at hr
    | some n =>
      have hn : ¬ n.length = 0 := by simpa [reachesHost] using hr
      have hb := new_paths env n s
      unfold spacy_init
      simp only [hn, if_false]
      generalize SpacyWrapper.new env n s = r at hb ⊢
      obtain ⟨r, s1⟩ := r
      have hr1 : reachesHost (some n) = true := by simpa using hr
      have e1 : appendedPaths [writeWrapper] = [] := rfl
      have key : appendedPaths s1.trace = appendedPaths s.trace ++
          (if s.python_initialized = false ∧ reachesHost (some n) = true ∧
            env.import_sys = true ∧ env.sys_path = true then fallbackPaths else []) := by
        rw [hb]
        simp [hr1]
      cases r with
      | error msg => simpa using key
      | ok w =>
        dsimp only
        cases hw : (s1.emit [writeWrapper]).wrapper with
        | none => simp only [State.emit_trace, appendedPaths_append, e1, key, List.append_nil]
        | some old =>
          obtain ⟨es, he, hes⟩ := destroy_eq old (s1.emit [writeWrapper])
          simp only [he, State.emit_trace, appendedPaths_append, e1, key, hes.2,
            List.append_nil]

theorem spacy_cleanup_spec (s : State) :
    (spacy_cleanup s).wrapper = none ∧
    (spacy_cleanup s).python_initialized = s.python_initialized ∧
    (spacy_cleanup s).cerr = s.cerr ∧
    (spacy_cleanup s).heap = s.heap ∧
    ∃ es, (spacy_cleanup s).trace = s.trace ++ es ∧ HostFree es := by
  unfold spacy_cleanup
  dsimp only
  cases hw : (s.emit [writeWrapper]).wrapper with
  | none =>
    simp only [State.emit_wrapper] at hw
    simp only [State.emit_python_initialized, State.emit_cerr, State.emit_heap,
      State.emit_trace, true_and]
    exact ⟨hw, [writeWrapper], rfl, by simp [HostFree, bootCount, appendedPaths]⟩
  | some old =>
    obtain ⟨es, he, hes⟩ := destroy_eq old (s.emit [writeWrapper])
    dsimp only
    rw [he]
    refine ⟨rfl, rfl, rfl, rfl, [writeWrapper] ++ es, by simp, ?_⟩
    exact HostFree.append (by simp [HostFree, bootCount, appendedPaths]) hes

/-- Without a session `spacy_tokenize` reads `wrapper`, writes one line to
`std::cerr` and returns the empty array. -/
theorem spacy_tokenize_none (env : Env) (text : Option CString) (s : State)
    (h : s.wrapper = none) :
    spacy_tokenize env text s
      = (Outcome.returned { tokens := 0, count := 0 },
          (s.emit [readWrapper]).log "Error: Spacy not initialized") := by
  unfold spacy_tokenize
  simp [h]

/-- Without a session `spacy_extract_entities` reads `wrapper`, writes one line to
`std::cerr` and returns the empty array. -/
theorem spacy_extract_entities_none (env : Env) (text : Option CString) (s : State)
    (h : s.wrapper = none) :
    spacy_extract_entities env text s
      = (Outcome.returned { entities := 0, count := 0 },
          (s.emit [readWrapper]).log "Error: Spacy not initialized") := by
  unfold spacy_extract_entities
  simp [h]

/-- Without a session `spacy_split_sentences` reads `wrapper`, writes one line to
`std::cerr` and returns the empty array. -/
theorem spacy_split_sentences_none (env : Env) (text : Option CString) (s : State)
    (h : s.wrapper = none) :
    spacy_split_sentences env text s
      = (Outcome.returned { sentences := 0, count := 0 },
          (s.emit [readWrapper]).log "Error: Spacy not initialized") := by
  unfold spacy_split_sentences
  simp [h]

/-- With a session and a null text `spacy_tokenize` only reads `wrapper` and
returns the empty array. -/
theorem spacy_tokenize_null (env : Env) (s : State) (w : SpacyWrapper)
    (h : s.wrapper = some w) :
    spacy_tokenize env none s
      = (Outcome.returned { tokens := 0, count := 0 }, s.emit [readWrapper]) := by
  unfold spacy_tokenize
  simp [h]

/-- With a session and a null text `spacy_extract_entities` only reads `wrapper` and
returns the empty array. -/
theorem spacy_extract_entities_null (env : Env) (s : State) (w : SpacyWrapper)
    (h : s.wrapper = some w) :
    spacy_extract_entities env none s
      = (Outcome.returned { entities := 0, count := 0 }, s.emit [readWrapper]) := by
  unfold spacy_extract_entities
  simp [h]

/-- With a session and a null text `spacy_split_sentences` only reads `wrapper` and
returns the empty array. -/
theorem spacy_split_sentences_null (env : Env) (s : State) (w : SpacyWrapper)
    (h : s.wrapper = some w) :
    spacy_split_sentences env none s
      = (Outcome.returned { sentences := 0, count := 0 }, s.emit [readWrapper]) := by
  unfold spacy_split_sentences
  simp [h]

/-- What `spacy_tokenize` leaves alone, however it ends: the session and the
host flag; and it neither boots the interpreter nor appends a search path. -/
theorem spacy_tokenize_frame (env : Env) (text : Option CString) (s : State) :
    (spacy_tokenize env text s).2.wrapper = s.wrapper ∧
    (spacy_tokenize env text s).2.python_initialized = s.python_initialized ∧
    ∃ es, (spacy_tokenize env text s).2.trace = s.trace ++ es ∧ HostFree es := by
  have hrw : HostFree [readWrapper] := by simp [HostFree, bootCount, appendedPaths]
  cases hw : s.wrapper with
  | none =>
    rw [spacy_tokenize_none env text s hw]
    exact ⟨by simpa using hw, rfl, [readWrapper], rfl, hrw⟩
  | some w =>
    cases text with
    | none =>
      rw [spacy_tokenize_null env s w hw]
      exact ⟨by simpa using hw, rfl, [readWrapper], rfl, hrw⟩
    | some t =>
      obtain ⟨es, he, hes⟩ := tokenize_snd w env t ((s.emit [readWrapper]).emit [readWrapper])
      have hall : HostFree ([readWrapper] ++ [readWrapper] ++ es) :=
        (hrw.append hrw).append hes
      unfold spacy_tokenize
      simp only [State.emit_wrapper, hw]
      generalize w.tokenize env t ((s.emit [readWrapper]).emit [readWrapper]) = r at he ⊢
      obtain ⟨o, s2⟩ := r
      simp only at he
      subst he
      cases o with
      | segfault => exact ⟨by simp [hw], by simp, _, by simp, hall⟩
      | exit => exact ⟨by simp [hw], by simp, _, by simp, hall⟩
      | returned v =>
        dsimp only
        split_ifs <;>
          exact ⟨by simp [State.log, hw], by simp [State.log], _, by simp [State.log], hall⟩

/-- What `spacy_extract_entities` leaves alone, however it ends: the session and the
host flag; and it neither boots the interpreter nor appends a search path. -/
theorem spacy_extract_entities_frame (env : Env) (text : Option CString) (s : State) :
    (spacy_extract_entities env text s).2.wrapper = s.wrapper ∧
    (spacy_extract_entities env text s).2.python_initialized = s.python_initialized ∧
    ∃ es, (spacy_extract_entities env text s).2.trace = s.trace ++ es ∧ HostFree es := by
  have hrw : HostFree [readWrapper] := by simp [HostFree, bootCount, appendedPaths]
  cases hw : s.wrapper with
  | none =>
    rw [spacy_extract_entities_none env text s hw]
    exact ⟨by simpa using hw, rfl, [readWrapper], rfl, hrw⟩
  | some w =>
    cases text with
    | none =>
      rw [spacy_extract_entities_null env s w hw]
      exact ⟨by simpa using hw, rfl, [readWrapper], rfl, hrw⟩
    | some t =>
      obtain ⟨es, he, hes⟩ := extractEntities_snd w env t ((s.emit [readWrapper]).emit [readWrapper])
      have hall : HostFree ([readWrapper] ++ [readWrapper] ++ es) :=
        (hrw.append hrw).append hes
      unfold spacy_extract_entities
      simp only [State.emit_wrapper, hw]
      generalize w.extractEntities env t ((s.emit [readWrapper]).emit [readWrapper]) = r at he ⊢
      obtain ⟨o, s2⟩ := r
      simp only at he
      subst he
      cases o with
      | segfault => exact ⟨by simp [hw], by simp, _, by simp, hall⟩
      | exit => exact ⟨by simp [hw], by simp, _, by simp, hall⟩
      | returned v =>
        dsimp only
        split_ifs <;>
          exact ⟨by simp [State.log, hw], by simp [State.log], _, by simp [State.log], hall⟩

/-- What `spacy_split_sentences` leaves alone, however it ends: the session and the
host flag; and it neither boots the interpreter nor appends a search path. -/
theorem spacy_split_sentences_frame (env : Env) (text : Option CString) (s : State) :
    (spacy_split_sentences env text s).2.wrapper = s.wrapper ∧
    (spacy_split_sentences env text s).2.python_initialized = s.python_initialized ∧
    ∃ es, (spacy_split_sentences env text s).2.trace = s.trace ++ es ∧ HostFree es := by
  have hrw : HostFree [readWrapper] := by simp [HostFree, bootCount, appendedPaths]
  cases hw : s.wrapper with
  | none =>
    rw [spacy_split_sentences_none env text s hw]
    exact ⟨by simpa using hw, rfl, [readWrapper], rfl, hrw⟩
  | some w =>
    cases text with
    | none =>
      rw [spacy_split_sentences_null env s w hw]
      exact ⟨by simpa using hw, rfl, [readWrapper], rfl, hrw⟩
    | some t =>
      obtain ⟨es, he, hes⟩ := splitSentences_snd w env t ((s.emit [readWrapper]).emit [readWrapper])
      have hall : HostFree ([readWrapper] ++ [readWrapper] ++ es) :=
        (hrw.append hrw).append hes
      unfold spacy_split_sentences
      simp only [State.emit_wrapper, hw]
      generalize w.splitSentences env t ((s.emit [readWrapper]).emit [readWrapper]) = r at he ⊢
      obtain ⟨o, s2⟩ := r
      simp only at he
      subst he
      cases o with
      | segfault => exact ⟨by simp [hw], by simp, _, by simp, hall⟩
      | exit => exact ⟨by simp [hw], by simp, _, by simp, hall⟩
      | returned v =>
        dsimp only
        split_ifs <;>
          exact ⟨by simp [State.log, hw], by simp [State.log], _, by simp [State.log], hall⟩

namespace Heap

theorem read_congr_str {h h2 : Heap} {q : Nat} (e : h2.read q = h.read q) :
    h2.readStr q = h.readStr q := by
  unfold readStr
  rw [e]

/-- A successful `strdup` returns a fresh non-null address that holds the
string, and leaves every older allocation as it was. -/
theorem strdup_spec (ok : Nat → Bool) (hok : ∀ k, ok k = true) (h : Heap) (s : String) :
    (h.strdup ok s).1 = h.cells.length + 1 ∧
    (h.strdup ok s).2.cells.length = h.cells.length + 1 ∧
    (h.strdup ok s).2.readStr (h.cells.length + 1) = some s ∧
    ∀ q, q ≤ h.cells.length → (h.strdup ok s).2.read q = h.read q := by
  unfold strdup malloc
  simp only [hok, if_true, true_and]
  refine ⟨by simp, ?_, ?_⟩
  · simp [readStr, read, List.getD_eq_getElem?_getD]
  · intro q hq
    unfold read
    by_cases h0 : q = 0
    · simp [h0]
    · have : q - 1 < h.cells.length := by omega
      simp [h0, List.getD_eq_getElem?_getD, List.getElem?_append_left this]

theorem read_write_same (h : Heap) (p : Nat) (b : Block) (hp : p ≠ 0)
    (hlen : p ≤ h.cells.length) : (h.write p b).read p = some b := by
  have : p - 1 < h.cells.length := by omega
  simp [write, read, hp, List.getD_eq_getElem?_getD, List.getElem?_set, this]

theorem read_write_other (h : Heap) (p q : Nat) (b : Block) (hq : q ≠ p) :
    (h.write p b).read q = h.read q := by
  unfold write read
  by_cases hp : p = 0
  · simp [hp]
  · by_cases h0 : q = 0
    · simp [h0]
    · have : p - 1 ≠ q - 1 := by omega
      simp [hp, h0, List.getD_eq_getElem?_getD, List.getElem?_set, this]

theorem write_length (h : Heap) (p : Nat) (b : Block) :
    (h.write p b).cells.length = h.cells.length := by
  unfold write
  split_ifs <;> simp

/-- An address that can be read lies inside the heap. -/
theorem le_of_read {h : Heap} {p : Nat} {b : Block} (e : h.read p = some b) :
    p ≠ 0 ∧ p ≤ h.cells.length := by
  unfold read at e
  by_cases h0 : p = 0
  · simp [h0] at e
  · refine ⟨h0, ?_⟩
    by_contra hlt
    have : h.cells.length ≤ p - 1 := by omega
    simp [h0, List.getD_eq_getElem?_getD, List.getElem?_eq_none this] at e


end Heap

/-- The copy loop of `spacy_tokenize`, when every allocation succeeds: entry
`i + j` of the array ends up holding the `j`-th remaining token, entries below
`i` and all other older allocations are left alone. -/
theorem fillTokens_spec (ok : Nat → Bool) (hok : ∀ k, ok k = true) (p : Nat) :
    ∀ (ts : List Token) (i : Nat) (h : Heap) (a : List CToken),
      h.read p = some (Block.tokens a) → i + ts.length ≤ a.length →
      ∃ a2, (fillTokens ok p ts i h).read p = some (Block.tokens a2) ∧
        a2.length = a.length ∧
        (∀ k, k < i → a2.get? k = a.get? k) ∧
        (∀ j (hj : j < ts.length), ∃ c, a2.get? (i + j) = some c ∧
          (fillTokens ok p ts i h).holdsToken c ts[j]) ∧
        (∀ q, q ≠ p → q ≤ h.cells.length → (fillTokens ok p ts i h).read q = h.read q) := by
  intro ts
  induction ts with
  | nil =>
    intro i h a hr _
    exact ⟨a, hr, rfl, fun _ _ => rfl, fun j hj => absurd hj (by simp), fun _ _ _ => rfl⟩
  | cons t rest ih =>
    intro i h a hr hlen
    obtain ⟨hp0, hpL⟩ := Heap.le_of_read hr
    simp only [List.length_cons] at hlen
    unfold fillTokens
    dsimp only
    obtain ⟨a1, l1, s1, f1⟩ := Heap.strdup_spec ok hok h t.text
    generalize h.strdup ok t.text = r1 at a1 l1 s1 f1 ⊢
    obtain ⟨a2, l2, s2, f2⟩ := Heap.strdup_spec ok hok r1.2 t.lemma_
    generalize r1.2.strdup ok t.lemma_ = r2 at a2 l2 s2 f2 ⊢
    obtain ⟨a3, l3, s3, f3⟩ := Heap.strdup_spec ok hok r2.2 t.pos
    generalize r2.2.strdup ok t.pos = r3 at a3 l3 s3 f3 ⊢
    obtain ⟨a4, l4, s4, f4⟩ := Heap.strdup_spec ok hok r3.2 t.tag
    generalize r3.2.strdup ok t.tag = r4 at a4 l4 s4 f4 ⊢
    obtain ⟨a5, l5, s5, f5⟩ := Heap.strdup_spec ok hok r4.2 t.dep
    generalize r4.2.strdup ok t.dep = r5 at a5 l5 s5 f5 ⊢
    -- the five strings and the array, as seen in the heap after the last strdup
    have old5 : ∀ q, q ≤ h.cells.length → r5.2.read q = h.read q := by
      intro q hq
      rw [f5 q (by omega), f4 q (by omega), f3 q (by omega), f2 q (by omega), f1 q hq]
    have t1 : r5.2.readStr r1.1 = some t.text := by
      rw [a1, ← s1]
      apply Heap.read_congr_str
      rw [f5 _ (by omega), f4 _ (by omega), f3 _ (by omega), f2 _ (by omega)]
    have t2 : r5.2.readStr r2.1 = some t.lemma_ := by
      rw [a2, ← s2]
      apply Heap.read_congr_str
      rw [f5 _ (by omega), f4 _ (by omega), f3 _ (by omega)]
    have t3 : r5.2.readStr r3.1 = some t.pos := by
      rw [a3, ← s3]
      apply Heap.read_congr_str
      rw [f5 _ (by omega), f4 _ (by omega)]
    have t4 : r5.2.readStr r4.1 = some t.tag := by
      rw [a4, ← s4]
      apply Heap.read_congr_str
      rw [f5 _ (by omega)]
    have t5 : r5.2.readStr r5.1 = some t.dep := by
      rw [a5, ← s5]
    have hr5 : r5.2.read p = some (Block.tokens a) := by rw [old5 p hpL, hr]
    obtain ⟨c0, hrec⟩ : ∃ c0 : CToken,
        c0 = CToken.mk r1.1 r2.1 r3.1 r4.1 r5.1 t.is_stop t.is_punct := ⟨_, rfl⟩
    rw [← hrec]
    have hst : r5.2.storeToken p i c0 = r5.2.write p (Block.tokens (a.set i c0)) := by
      unfold Heap.storeToken
      rw [hr5]
    rw [hst]
    have hr6 : (r5.2.write p (Block.tokens (a.set i c0))).read p
        = some (Block.tokens (a.set i c0)) :=
      Heap.read_write_same _ _ _ hp0 (by omega)
    have l6 : (r5.2.write p (Block.tokens (a.set i c0))).cells.length
        = h.cells.length + 5 := by
      rw [Heap.write_length]; omega
    obtain ⟨b, hb1, hb2, hb3, hb4, hb5⟩ :=
      ih (i + 1) (r5.2.write p (Block.tokens (a.set i c0))) (a.set i c0) hr6
        (by simp only [List.length_set]; omega)
    generalize fillTokens ok p rest (i + 1) (r5.2.write p (Block.tokens (a.set i c0))) = hF
      at hb1 hb4 hb5 ⊢
    -- an allocation older than the array, or one of the five strings, is not touched later
    have keep : ∀ q, q ≠ p → q ≤ h.cells.length + 5 → hF.read q = r5.2.read q := by
      intro q hq hle
      rw [hb5 q hq (by omega), Heap.read_write_other _ _ _ _ hq]
    refine ⟨b, hb1, by simpa using hb2, ?_, ?_, ?_⟩
    · intro k hk
      rw [hb3 k (by omega)]
      simp [List.getElem?_set, show i ≠ k by omega]
    · intro j hj
      cases j with
      | zero =>
        refine ⟨c0, ?_, ?_⟩
        · rw [Nat.add_zero, hb3 i (by omega)]
          simp [List.getElem?_set, show i < a.length by omega]
        · subst hrec
          show Heap.holdsToken hF _ t
          refine ⟨?_, ?_, ?_, ?_, ?_, rfl, rfl⟩
          · rw [← t1]; exact Heap.read_congr_str (keep _ (by dsimp only; omega) (by dsimp only; omega))
          · rw [← t2]; exact Heap.read_congr_str (keep _ (by dsimp only; omega) (by dsimp only; omega))
          · rw [← t3]; exact Heap.read_congr_str (keep _ (by dsimp only; omega) (by dsimp only; omega))
          · rw [← t4]; exact Heap.read_congr_str (keep _ (by dsimp only; omega) (by dsimp only; omega))
          · rw [← t5]; exact Heap.read_congr_str (keep _ (by dsimp only; omega) (by dsimp only; omega))
      | succ j =>
        obtain ⟨c, hc1, hc2⟩ := hb4 j (by simpa using hj)
        refine ⟨c, ?_, ?_⟩
        · rw [← hc1]; congr 1; omega
        · simpa using hc2
    · intro q hq hle
      rw [keep q hq (by omega), old5 q hle]

theorem Heap.malloc_spec (ok : Nat → Bool) (hok : ∀ k, ok k = true) (h : Heap) (b : Block) :
    (h.malloc ok b).1 = h.cells.length + 1 ∧
    (h.malloc ok b).2.read (h.cells.length + 1) = some b := by
  unfold Heap.malloc
  simp only [hok, if_true, true_and]
  simp [Heap.read, List.getD_eq_getElem?_getD]

/-- With a session, a text that is valid UTF-8 and that the model answers with
a non-empty token collection, and an allocator that never fails,
`spacy_tokenize` returns a non-null array of as many records as tokens, record
`i` holding the `i`-th token. -/
theorem spacy_tokenize_ok (env : Env) (s : State) (w : SpacyWrapper) (text : CString)
    (doc : Doc) (hw : s.wrapper = some w) (hvalid : validUTF8 text = true)
    (hcall : env.call w.nlp text = some doc)
    (hne : doc.tokens ≠ []) (halloc : ∀ k, env.malloc_ok k = true) :
    ∃ arr, (spacy_tokenize env (some text) s).1 = Outcome.returned arr ∧
      arr.tokens ≠ 0 ∧ arr.count = doc.tokens.length ∧
      ∀ i (hi : i < doc.tokens.length), ∃ c,
        (spacy_tokenize env (some text) s).2.heap.tokenAt arr.tokens i = some c ∧
          (spacy_tokenize env (some text) s).2.heap.holdsToken c
            (readToken doc.tokens[i]) := by
  have hfst := tokenize_fst w env text ((s.emit [readWrapper]).emit [readWrapper]) hvalid
  rw [hcall] at hfst
  dsimp only at hfst
  obtain ⟨es, he, -⟩ := tokenize_snd w env text ((s.emit [readWrapper]).emit [readWrapper])
  unfold spacy_tokenize
  simp only [State.emit_wrapper, hw]
  generalize w.tokenize env text ((s.emit [readWrapper]).emit [readWrapper]) = r at hfst he ⊢
  obtain ⟨v, s2⟩ := r
  simp only at hfst he
  subst hfst he
  have hv : (List.map readToken doc.tokens).isEmpty = false := by
    cases hd : doc.tokens with
    | nil => exact absurd hd hne
    | cons a l => rfl
  simp only [hv, Bool.false_eq_true, if_false, State.emit_heap, List.length_map]
  obtain ⟨m1, m2⟩ := Heap.malloc_spec env.malloc_ok halloc s.heap
    (Block.tokens (List.replicate doc.tokens.length default))
  generalize s.heap.malloc env.malloc_ok
    (Block.tokens (List.replicate doc.tokens.length default)) = m at m1 m2 ⊢
  have hm0 : ¬ m.1 = 0 := by omega
  simp only [hm0, if_false]
  refine ⟨_, rfl, hm0, rfl, ?_⟩
  intro i hi
  rw [← m1] at m2
  obtain ⟨a2, h1, -, -, h4, -⟩ := fillTokens_spec env.malloc_ok halloc m.1
    (doc.tokens.map readToken) 0 m.2 _ m2 (by simp)
  obtain ⟨c, hc1, hc2⟩ := h4 i (by simpa using hi)
  refine ⟨c, ?_, ?_⟩
  · unfold Heap.tokenAt
    rw [h1]
    simpa using hc1
  · simpa using hc2

/-- The copy loop of `spacy_extract_entities`, when every allocation
succeeds. -/
theorem fillEntities_spec (ok : Nat → Bool) (hok : ∀ k, ok k = true) (p : Nat) :
    ∀ (ts : List Entity) (i : Nat) (h : Heap) (a : List CEntity),
      h.read p = some (Block.entities a) → i + ts.length ≤ a.length →
      ∃ a2, (fillEntities ok p ts i h).read p = some (Block.entities a2) ∧
        a2.length = a.length ∧
        (∀ k, k < i → a2.get? k = a.get? k) ∧
        (∀ j (hj : j < ts.length), ∃ c, a2.get? (i + j) = some c ∧
          (fillEntities ok p ts i h).holdsEntity c ts[j]) ∧
        (∀ q, q ≠ p → q ≤ h.cells.length → (fillEntities ok p ts i h).read q = h.read q) := by
  intro ts
  induction ts with
  | nil =>
    intro i h a hr _
    exact ⟨a, hr, rfl, fun _ _ => rfl, fun j hj => absurd hj (by simp), fun _ _ _ => rfl⟩
  | cons t rest ih =>
    intro i h a hr hlen
    obtain ⟨hp0, hpL⟩ := Heap.le_of_read hr
    simp only [List.length_cons] at hlen
    unfold fillEntities
    dsimp only
    obtain ⟨a1, l1, s1, f1⟩ := Heap.strdup_spec ok hok h t.text
    generalize h.strdup ok t.text = r1 at a1 l1 s1 f1 ⊢
    obtain ⟨a2, l2, s2, f2⟩ := Heap.strdup_spec ok hok r1.2 t.label
    generalize r1.2.strdup ok t.label = r2 at a2 l2 s2 f2 ⊢
    have old2 : ∀ q, q ≤ h.cells.length → r2.2.read q = h.read q := by
      intro q hq
      rw [f2 q (by omega), f1 q hq]
    have t1 : r2.2.readStr r1.1 = some t.text := by
      rw [a1, ← s1]
      apply Heap.read_congr_str
      rw [f2 _ (by omega)]
    have t2 : r2.2.readStr r2.1 = some t.label := by
      rw [a2, ← s2]
    have hr2 : r2.2.read p = some (Block.entities a) := by rw [old2 p hpL, hr]
    obtain ⟨c0, hrec⟩ : ∃ c0 : CEntity,
        c0 = CEntity.mk r1.1 r2.1 t.start t.end_ := ⟨_, rfl⟩
    rw [← hrec]
    have hst : r2.2.storeEntity p i c0 = r2.2.write p (Block.entities (a.set i c0)) := by
      unfold Heap.storeEntity
      rw [hr2]
    rw [hst]
    have hr6 : (r2.2.write p (Block.entities (a.set i c0))).read p
        = some (Block.entities (a.set i c0)) :=
      Heap.read_write_same _ _ _ hp0 (by omega)
    have l6 : (r2.2.write p (Block.entities (a.set i c0))).cells.length
        = h.cells.length + 2 := by
      rw [Heap.write_length]; omega
    obtain ⟨b, hb1, hb2, hb3, hb4, hb5⟩ :=
      ih (i + 1) (r2.2.write p (Block.entities (a.set i c0))) (a.set i c0) hr6
        (by simp only [List.length_set]; omega)
    generalize fillEntities ok p rest (i + 1) (r2.2.write p (Block.entities (a.set i c0))) = hF
      at hb1 hb4 hb5 ⊢
    have keep : ∀ q, q ≠ p → q ≤ h.cells.length + 2 → hF.read q = r2.2.read q := by
      intro q hq hle
      rw [hb5 q hq (by omega), Heap.read_write_other _ _ _ _ hq]
    refine ⟨b, hb1, by simpa using hb2, ?_, ?_, ?_⟩
    · intro k hk
      rw [hb3 k (by omega)]
      simp [List.getElem?_set, show i ≠ k by omega]
    · intro j hj
      cases j with
      | zero =>
        refine ⟨c0, ?_, ?_⟩
        · rw [Nat.add_zero, hb3 i (by omega)]
          simp [List.getElem?_set, show i < a.length by omega]
        · subst hrec
          show Heap.holdsEntity hF _ t
          refine ⟨?_, ?_, rfl, rfl⟩
          · rw [← t1]; exact Heap.read_congr_str (keep _ (by dsimp only; omega) (by dsimp only; omega))
          · rw [← t2]; exact Heap.read_congr_str (keep _ (by dsimp only; omega) (by dsimp only; omega))
      | succ j =>
        obtain ⟨c, hc1, hc2⟩ := hb4 j (by simpa using hj)
        refine ⟨c, ?_, ?_⟩
        · rw [← hc1]; congr 1; omega
        · simpa using hc2
    · intro q hq hle
      rw [keep q hq (by omega), old2 q hle]

/-- With a session, a text that is valid UTF-8 and that the model answers, and
an allocator that never fails, `spacy_extract_entities` returns as many
records as entities, record `i` holding the `i`-th entity as read by
`readEntity`. -/
theorem spacy_extract_entities_ok (env : Env) (s : State) (w : SpacyWrapper)
    (text : CString) (doc : Doc) (hw : s.wrapper = some w)
    (hvalid : validUTF8 text = true) (hcall : env.call w.nlp text = some doc)
    (halloc : ∀ k, env.malloc_ok k = true) :
    ∃ arr, (spacy_extract_entities env (some text) s).1 = Outcome.returned arr ∧
      arr.count = doc.ents.length ∧
      ∀ i (hi : i < doc.ents.length), ∃ c,
        (spacy_extract_entities env (some text) s).2.heap.entityAt arr.entities i = some c ∧
          (spacy_extract_entities env (some text) s).2.heap.holdsEntity c
            (readEntity doc.ents[i]) := by
  have hfst :=
    extractEntities_fst w env text ((s.emit [readWrapper]).emit [readWrapper]) hvalid
  rw [hcall] at hfst
  dsimp only at hfst
  obtain ⟨es, he, -⟩ :=
    extractEntities_snd w env text ((s.emit [readWrapper]).emit [readWrapper])
  unfold spacy_extract_entities
  simp only [State.emit_wrapper, hw]
  generalize w.extractEntities env text ((s.emit [readWrapper]).emit [readWrapper]) = r
    at hfst he ⊢
  obtain ⟨v, s2⟩ := r
  simp only at hfst he
  subst hfst he
  cases hd : doc.ents with
  | nil => exact ⟨_, rfl, rfl, fun i hi => absurd hi (by simp)⟩
  | cons e0 l =>
    rw [← hd]
    have hv : (List.map readEntity doc.ents).isEmpty = false := by rw [hd]; rfl
    simp only [hv, Bool.false_eq_true, if_false, State.emit_heap, List.length_map]
    obtain ⟨m1, m2⟩ := Heap.malloc_spec env.malloc_ok halloc s.heap
      (Block.entities (List.replicate doc.ents.length default))
    generalize s.heap.malloc env.malloc_ok
      (Block.entities (List.replicate doc.ents.length default)) = m at m1 m2 ⊢
    have hm0 : ¬ m.1 = 0 := by omega
    simp only [hm0, if_false]
    refine ⟨_, rfl, rfl, ?_⟩
    intro i hi
    rw [← m1] at m2
    obtain ⟨a2, h1, -, -, h4, -⟩ := fillEntities_spec env.malloc_ok halloc m.1
      (doc.ents.map readEntity) 0 m.2 _ m2 (by simp)
    obtain ⟨c, hc1, hc2⟩ := h4 i (by simpa using hi)
    refine ⟨c, ?_, ?_⟩
    · unfold Heap.entityAt
      rw [h1]
      simpa using hc1
    · simpa using hc2

/-- An offset in the range of `int` passes through `PyLong_AsLong` and the
conversion to `int` unchanged. -/
theorem longToInt_PyLong_AsLong (v : Int) (h1 : -(2 ^ 31 : Int) ≤ v) (h2 : v < (2 ^ 31 : Int)) :
    longToInt (PyLong_AsLong v) = v := by
  have e : PyLong_AsLong v = v := by
    unfold PyLong_AsLong LONG_BITS
    rw [if_pos]
    constructor <;> norm_num at * <;> omega
  rw [e]
  unfold longToInt INT_BITS
  norm_num at *
  omega
/-- The bookkeeping of `sessionExists` agrees with the global `wrapper`. -/
theorem sessionExists_eq (calls : List (Env × Op)) :
    ∀ s : State, sessionExists calls s s.wrapper.isSome = (run calls s).wrapper.isSome := by
  induction calls with
  | nil => intro s; rfl
  | cons c rest ih =>
    intro s
    obtain ⟨env, op⟩ := c
    unfold sessionExists run
    rw [← ih (step env op s)]
    congr 1
    cases op with
    | init name =>
      simp only [step]
      rcases spacy_init_wrapper env name s with ⟨h1, h2⟩ | ⟨h1, -, w, h2, -⟩
      · rw [h1, h2]; simp
      · rw [h1, h2]; simp
    | cleanup => simp [step, (spacy_cleanup_spec s).1]
    | tokenize text => simp [step, (spacy_tokenize_frame env text s).1]
    | extract_entities text => simp [step, (spacy_extract_entities_frame env text s).1]
    | split_sentences text => simp [step, (spacy_split_sentences_frame env text s).1]

theorem free_token_array_twice (arr : Option TokenArray) (h : Heap) :
    free_token_array (free_token_array arr h).1 (free_token_array arr h).2
      = free_token_array arr h := by
  unfold free_token_array
  cases arr with
  | none => rfl
  | some a =>
    by_cases hp : a.tokens = 0
    · simp [hp]
    · simp [hp]

theorem free_entity_array_twice (arr : Option EntityArray) (h : Heap) :
    free_entity_array (free_entity_array arr h).1 (free_entity_array arr h).2
      = free_entity_array arr h := by
  unfold free_entity_array
  cases arr with
  | none => rfl
  | some a =>
    by_cases hp : a.entities = 0
    · simp [hp]
    · simp [hp]

theorem free_sentence_array_twice (arr : Option SentenceArray) (h : Heap) :
    free_sentence_array (free_sentence_array arr h).1 (free_sentence_array arr h).2
      = free_sentence_array arr h := by
  unfold free_sentence_array
  cases arr with
  | none => rfl
  | some a =>
    by_cases hp : a.sentences = 0
    · simp [hp]
    · simp [hp]

/-- An array returned by `spacy_tokenize` has a null pointer only together
with count 0. -/
theorem spacy_tokenize_wf (env : Env) (text : Option CString) (s : State) (arr : TokenArray)
    (h : (spacy_tokenize env text s).1 = Outcome.returned arr) :
    arr.tokens = 0 → arr.count = 0 := by
  unfold spacy_tokenize at h
  dsimp only at h
  cases hw : (s.emit [readWrapper]).wrapper with
  | none =>
    rw [hw] at h
    simp only [Outcome.returned.injEq] at h
    subst h; intro _; rfl
  | some w =>
    rw [hw] at h
    cases text with
    | none =>
      simp only [Outcome.returned.injEq] at h
      subst h; intro _; rfl
    | some t =>
      dsimp only at h
      generalize w.tokenize env t ((s.emit [readWrapper]).emit [readWrapper]) = r at h
      obtain ⟨o, s2⟩ := r
      cases o with
      | segfault => simp at h
      | exit => simp at h
      | returned v =>
        dsimp only at h
        split_ifs at h with h1 h2
        · simp only [Outcome.returned.injEq] at h
          subst h; intro _; rfl
        · simp only [Outcome.returned.injEq] at h
          subst h; intro _; rfl
        · simp only [Outcome.returned.injEq] at h
          subst h; intro h0; exact absurd h0 h2

/-- An array returned by `spacy_extract_entities` has a null pointer only together
with count 0. -/
theorem spacy_extract_entities_wf (env : Env) (text : Option CString) (s : State) (arr : EntityArray)
    (h : (spacy_extract_entities env text s).1 = Outcome.returned arr) :
    arr.entities = 0 → arr.count = 0 := by
  unfold spacy_extract_entities at h
  dsimp only at h
  cases hw : (s.emit [readWrapper]).wrapper with
  | none =>
    rw [hw] at h
    simp only [Outcome.returned.injEq] at h
    subst h; intro _; rfl
  | some w =>
    rw [hw] at h
    cases text with
    | none =>
      simp only [Outcome.returned.injEq] at h
      subst h; intro _; rfl
    | some t =>
      dsimp only at h
      generalize w.extractEntities env t ((s.emit [readWrapper]).emit [readWrapper]) = r at h
      obtain ⟨o, s2⟩ := r
      cases o with
      | segfault => simp at h
      | exit => simp at h
      | returned v =>
        dsimp only at h
        split_ifs at h with h1 h2
        · simp only [Outcome.returned.injEq] at h
          subst h; intro _; rfl
        · simp only [Outcome.returned.injEq] at h
          subst h; intro _; rfl
        · simp only [Outcome.returned.injEq] at h
          subst h; intro h0; exact absurd h0 h2

/-- An array returned by `spacy_split_sentences` has a null pointer only together
with count 0. -/
theorem spacy_split_sentences_wf (env : Env) (text : Option CString) (s : State) (arr : SentenceArray)
    (h : (spacy_split_sentences env text s).1 = Outcome.returned arr) :
    arr.sentences = 0 → arr.count = 0 := by
  unfold spacy_split_sentences at h
  dsimp only at h
  cases hw : (s.emit [readWrapper]).wrapper with
  | none =>
    rw [hw] at h
    simp only [Outcome.returned.injEq] at h
    subst h; intro _; rfl
  | some w =>
    rw [hw] at h
    cases text with
    | none =>
      simp only [Outcome.returned.injEq] at h
      subst h; intro _; rfl
    | some t =>
      dsimp only at h
      generalize w.splitSentences env t ((s.emit [readWrapper]).emit [readWrapper]) = r at h
      obtain ⟨o, s2⟩ := r
      cases o with
      | segfault => simp at h
      | exit => simp at h
      | returned v =>
        dsimp only at h
        split_ifs at h with h1 h2
        · simp only [Outcome.returned.injEq] at h
          subst h; intro _; rfl
        · simp only [Outcome.returned.injEq] at h
          subst h; intro _; rfl
        · simp only [Outcome.returned.injEq] at h
          subst h; intro h0; exact absurd h0 h2

/-- One call adds a boot to the trace exactly when the host is not booted yet
and the call reaches the host. -/
theorem step_boot (env : Env) (op : Op) (s : State) :
    bootCount (step env op s).trace
      = bootCount s.trace +
        (if s.python_initialized = false ∧ op.reachesHost = true then 1 else 0) := by
  cases op with
  | init name => exact spacy_init_boot env name s
  | cleanup =>
    obtain ⟨-, -, -, -, es, he, hes⟩ := spacy_cleanup_spec s
    simp [step, Op.reachesHost, he, bootCount_append, hes.1]
  | tokenize text =>
    obtain ⟨-, -, es, he, hes⟩ := spacy_tokenize_frame env text s
    simp [step, Op.reachesHost, he, bootCount_append, hes.1]
  | extract_entities text =>
    obtain ⟨-, -, es, he, hes⟩ := spacy_extract_entities_frame env text s
    simp [step, Op.reachesHost, he, bootCount_append, hes.1]
  | split_sentences text =>
    obtain ⟨-, -, es, he, hes⟩ := spacy_split_sentences_frame env text s
    simp [step, Op.reachesHost, he, bootCount_append, hes.1]

/-- One call appends the search paths exactly when the host is not booted
yet, the call reaches the host, and `sys` and `sys.path` can be obtained. -/
theorem step_paths (env : Env) (op : Op) (s : State) :
    appendedPaths (step env op s).trace
      = appendedPaths s.trace ++
        (if s.python_initialized = false ∧ op.reachesHost = true ∧
            env.import_sys = true ∧ env.sys_path = true
          then fallbackPaths else []) := by
  cases op with
  | init name => exact spacy_init_paths env name s
  | cleanup =>
    obtain ⟨-, -, -, -, es, he, hes⟩ := spacy_cleanup_spec s
    simp [step, Op.reachesHost, he, appendedPaths_append, hes.2]
  | tokenize text =>
    obtain ⟨-, -, es, he, hes⟩ := spacy_tokenize_frame env text s
    simp [step, Op.reachesHost, he, appendedPaths_append, hes.2]
  | extract_entities text =>
    obtain ⟨-, -, es, he, hes⟩ := spacy_extract_entities_frame env text s
    simp [step, Op.reachesHost, he, appendedPaths_append, hes.2]
  | split_sentences text =>
    obtain ⟨-, -, es, he, hes⟩ := spacy_split_sentences_frame env text s
    simp [step, Op.reachesHost, he, appendedPaths_append, hes.2]

/-- The host-booted flag is set by a call that reaches the host and is never
reset. -/
theorem step_flag (env : Env) (op : Op) (s : State) :
    (step env op s).python_initialized = (s.python_initialized || op.reachesHost) := by
  cases op with
  | init name => exact spacy_init_flag env name s
  | cleanup => simp [step, Op.reachesHost, (spacy_cleanup_spec s).2.1]
  | tokenize text => simp [step, Op.reachesHost, (spacy_tokenize_frame env text s).2.1]
  | extract_entities text =>
    simp [step, Op.reachesHost, (spacy_extract_entities_frame env text s).2.1]
  | split_sentences text =>
    simp [step, Op.reachesHost, (spacy_split_sentences_frame env text s).2.1]

theorem hostInv_step (env : Env) (op : Op) (s : State) (h : HostInv s) :
    HostInv (step env op s) := by
  obtain ⟨h1, h2, h3⟩ := h
  unfold HostInv
  rw [step_boot, step_paths, step_flag]
  cases hf : s.python_initialized with
  | true =>
    simp only [hf] at h1
    simp [h1, h3]
  | false =>
    obtain ⟨b0, p0⟩ := h2 hf
    cases hr : op.reachesHost with
    | false => simp [b0, p0]
    | true =>
      by_cases c : env.import_sys = true ∧ env.sys_path = true
      · simp [b0, p0, c]
      · simp [b0, p0, c]

theorem hostInv_run (calls : List (Env × Op)) :
    ∀ s, HostInv s → HostInv (run calls s) := by
  induction calls with
  | nil => intro s h; exact h
  | cons c rest ih =>
    intro s h
    obtain ⟨env, op⟩ := c
    exact ih _ (hostInv_step env op s h)

theorem hostInv_initial : HostInv State.initial :=
  ⟨fun h => absurd h (by decide), fun _ => ⟨rfl, rfl⟩, Or.inl rfl⟩

/-- The host-booted flag after a sequence of calls: set before, or set by a
call of the sequence that reached the host. -/
theorem run_flag (calls : List (Env × Op)) :
    ∀ s : State, (run calls s).python_initialized
      = (s.python_initialized || calls.any (fun c => c.2.reachesHost)) := by
  induction calls with
  | nil => intro s; simp [run]
  | cons c rest ih =>
    intro s
    obtain ⟨env, op⟩ := c
    simp [run, ih, step_flag, Bool.or_assoc]

/-- With a session, a text that is valid UTF-8, a model call that fails with
an exception other than `SystemExit`: each member function returns the empty
vector, each query returns the empty array, and the session stays in place. -/
theorem queries_fail_soft (env : Env) (s st : State) (w : SpacyWrapper) (text : CString)
    (hw : s.wrapper = some w) (hvalid : validUTF8 text = true)
    (hcall : env.call w.nlp text = none) (hexit : env.system_exit = false) :
    ((w.tokenize env text st).1 = Outcome.returned [] ∧
      (w.extractEntities env text st).1 = Outcome.returned [] ∧
      (w.splitSentences env text st).1 = Outcome.returned []) ∧
    ((spacy_tokenize env (some text) s).1 = Outcome.returned { tokens := 0, count := 0 } ∧
      (spacy_extract_entities env (some text) s).1
        = Outcome.returned { entities := 0, count := 0 } ∧
      (spacy_split_sentences env (some text) s).1
        = Outcome.returned { sentences := 0, count := 0 }) ∧
    ((spacy_tokenize env (some text) s).2.wrapper = some w ∧
      (spacy_extract_entities env (some text) s).2.wrapper = some w ∧
      (spacy_split_sentences env (some text) s).2.wrapper = some w) := by
  have e1 := fun st => tokenize_fst w env text st hvalid
  have e2 := fun st => extractEntities_fst w env text st hvalid
  have e3 := fun st => splitSentences_fst w env text st hvalid
  simp only [hcall, hexit, Bool.false_eq_true, if_false] at e1 e2 e3
  refine ⟨⟨e1 st, e2 st, e3 st⟩, ⟨?_, ?_, ?_⟩,
    (spacy_tokenize_frame env (some text) s).1.trans hw,
    (spacy_extract_entities_frame env (some text) s).1.trans hw,
    (spacy_split_sentences_frame env (some text) s).1.trans hw⟩
  · unfold spacy_tokenize
    simp only [State.emit_wrapper, hw]
    have h := e1 ((s.emit [readWrapper]).emit [readWrapper])
    generalize w.tokenize env text ((s.emit [readWrapper]).emit [readWrapper]) = r at h ⊢
    obtain ⟨o, s2⟩ := r
    simp only at h
    subst h
    rfl
  · unfold spacy_extract_entities
    simp only [State.emit_wrapper, hw]
    have h := e2 ((s.emit [readWrapper]).emit [readWrapper])
    generalize w.extractEntities env text ((s.emit [readWrapper]).emit [readWrapper]) = r
      at h ⊢
    obtain ⟨o, s2⟩ := r
    simp only at h
    subst h
    rfl
  · unfold spacy_split_sentences
    simp only [State.emit_wrapper, hw]
    have h := e3 ((s.emit [readWrapper]).emit [readWrapper])
    generalize w.splitSentences env text ((s.emit [readWrapper]).emit [readWrapper]) = r
      at h ⊢
    obtain ⟨o, s2⟩ := r
    simp only at h
    subst h
    rfl

/-- With a session and a text that is not valid UTF-8, no query returns: the
process dies in `Py_DECREF(pyText)`, or exits in `PyErr_Print` before. -/
theorem queries_die_on_invalid_text (env : Env) (s : State) (w : SpacyWrapper)
    (text : CString) (hw : s.wrapper = some w) (hvalid : validUTF8 text = false) :
    (∀ arr, (spacy_tokenize env (some text) s).1 ≠ Outcome.returned arr) ∧
    (∀ arr, (spacy_extract_entities env (some text) s).1 ≠ Outcome.returned arr) ∧
    (∀ arr, (spacy_split_sentences env (some text) s).1 ≠ Outcome.returned arr) := by
  refine ⟨?_, ?_, ?_⟩
  · have h := tokenize_invalid w env text ((s.emit [readWrapper]).emit [readWrapper]) hvalid
    unfold spacy_tokenize
    simp only [State.emit_wrapper, hw]
    generalize w.tokenize env text ((s.emit [readWrapper]).emit [readWrapper]) = r at h ⊢
    obtain ⟨o, s2⟩ := r
    simp only at h
    subst h
    intro arr
    split_ifs <;> simp
  · have h :=
      extractEntities_invalid w env text ((s.emit [readWrapper]).emit [readWrapper]) hvalid
    unfold spacy_extract_entities
    simp only [State.emit_wrapper, hw]
    generalize w.extractEntities env text ((s.emit [readWrapper]).emit [readWrapper]) = r
      at h ⊢
    obtain ⟨o, s2⟩ := r
    simp only at h
    subst h
    intro arr
    split_ifs <;> simp
  · have h :=
      splitSentences_invalid w env text ((s.emit [readWrapper]).emit [readWrapper]) hvalid
    unfold spacy_split_sentences
    simp only [State.emit_wrapper, hw]
    generalize w.splitSentences env text ((s.emit [readWrapper]).emit [readWrapper]) = r
      at h ⊢
    obtain ⟨o, s2⟩ := r
    simp only at h
    subst h
    intro arr
    split_ifs <;> simp

/-! ## The claims -/

/-- C1: whenever no session exists (no `spacy_init` has succeeded yet, or
`spacy_cleanup` was called after the last successful one), each of
`spacy_tokenize`, `spacy_extract_entities` and `spacy_split_sentences`, for
every text argument (any bytes, or the null pointer), returns the empty array
(null pointer, count 0), writes the line "Error: Spacy not initialized" to
`std::cerr`, and makes no call into the interpreter. -/
theorem C1_queries_without_session (calls : List (Env × Op)) (s : State) (env : Env)
    (text : Option CString) (hs : s = run calls State.initial)
    (hno : sessionExists calls State.initial false = false) :
    s.wrapper = none ∧
    (spacy_tokenize env text s).1 = Outcome.returned { tokens := 0, count := 0 } ∧
    (spacy_extract_entities env text s).1
      = Outcome.returned { entities := 0, count := 0 } ∧
    (spacy_split_sentences env text s).1
      = Outcome.returned { sentences := 0, count := 0 } ∧
    (spacy_tokenize env text s).2.cerr = s.cerr ++ ["Error: Spacy not initialized"] ∧
    (spacy_extract_entities env text s).2.cerr = s.cerr ++ ["Error: Spacy not initialized"] ∧
    (spacy_split_sentences env text s).2.cerr = s.cerr ++ ["Error: Spacy not initialized"] ∧
    pyCalls (spacy_tokenize env text s).2.trace = pyCalls s.trace ∧
    pyCalls (spacy_extract_entities env text s).2.trace = pyCalls s.trace ∧
    pyCalls (spacy_split_sentences env text s).2.trace = pyCalls s.trace := by
  have hw : s.wrapper = none := by
    have h := sessionExists_eq calls State.initial
    rw [← hs] at h
    have h0 : State.initial.wrapper.isSome = false := rfl
    rw [h0, hno] at h
    cases hsw : s.wrapper with
    | none => rfl
    | some w => rw [hsw] at h; simp at h
  rw [spacy_tokenize_none env text s hw, spacy_extract_entities_none env text s hw,
    spacy_split_sentences_none env text s hw]
  simp [hw, pyCalls_append, pyCalls]

/-- C1, evaluated: after a successful `spacy_init` followed by
`spacy_cleanup` no session exists, and `spacy_tokenize(NULL)` returns the empty
array. -/
theorem C1_queries_without_session_witness :
    sessionExists [(goodEnv, Op.init (some "en_core_web_sm")), (goodEnv, Op.cleanup)]
        State.initial false = false ∧
    (spacy_tokenize goodEnv none
        (run [(goodEnv, Op.init (some "en_core_web_sm")), (goodEnv, Op.cleanup)]
          State.initial)).1 = Outcome.returned { tokens := 0, count := 0 } :=
  ⟨by decide,
    (C1_queries_without_session
      [(goodEnv, Op.init (some "en_core_web_sm")), (goodEnv, Op.cleanup)] _ goodEnv none rfl
      (by decide)).2.1⟩

/-- C2: for every state, `spacy_init` called with a null or an empty model
name returns `-1` before any interpreter call: the trace is unchanged (no boot,
no import, no load, no lock taken), and the global session, the host-booted
flag and the heap are left exactly as they were; one line is written to
`std::cerr`. -/
theorem C2_init_rejects_null_or_empty_name (env : Env) (s : State)
    (model_name : Option String) (h : model_name = none ∨ model_name = some "") :
    (spacy_init env model_name s).1 = -1 ∧
    (spacy_init env model_name s).2.trace = s.trace ∧
    (spacy_init env model_name s).2.wrapper = s.wrapper ∧
    (spacy_init env model_name s).2.python_initialized = s.python_initialized ∧
    (spacy_init env model_name s).2.heap = s.heap ∧
    (spacy_init env model_name s).2.cerr = s.cerr ++ ["Error: model_name is null or empty"] := by
  have hr : reachesHost model_name = false := by
    rcases h with h | h <;> subst h <;> rfl
  rw [spacy_init_reject env model_name s hr]
  exact ⟨rfl, rfl, rfl, rfl, rfl, rfl⟩

/-- C2, evaluated on a session that is already open and the empty name. -/
theorem C2_init_rejects_null_or_empty_name_witness :
    (spacy_init goodEnv (some "") readyState).1 = -1 ∧
    (spacy_init goodEnv (some "") readyState).2.trace = readyState.trace :=
  ⟨(C2_init_rejects_null_or_empty_name goodEnv readyState (some "") (Or.inr rfl)).1,
    (C2_init_rejects_null_or_empty_name goodEnv readyState (some "") (Or.inr rfl)).2.1⟩

/-- C3 as stated fails: in state Ready, `spacy_init("")` returns `-1` and so
does a `spacy_init` whose model load fails, yet the session is still there and
the next `spacy_tokenize` returns a non-empty array. -/
theorem C3_counterexample :
    (spacy_init goodEnv (some "") readyState).1 = -1 ∧
    (spacy_init goodEnv (some "") readyState).2.wrapper = some { nlp := 9, spacyModule := 7 } ∧
    (spacy_tokenize goodEnv (some sampleText)
        (spacy_init goodEnv (some "") readyState).2).1
      = Outcome.returned { tokens := 1, count := 2 } ∧
    (spacy_init noModelEnv (some "xx") readyState).1 = -1 ∧
    (spacy_init noModelEnv (some "xx") readyState).2.wrapper
      = some { nlp := 9, spacyModule := 7 } := by
  decide

/-- C3, amended: for every prior state and every model name, a `spacy_init`
that fails (returns `-1`) leaves the global session exactly as it was.  From
Uninitialized the system therefore stays Uninitialized, and a subsequent
`spacy_tokenize` on any text returns the empty array (null, 0). -/
theorem C3_failed_init_keeps_session (env env2 : Env) (s : State) (model_name : Option String)
    (text : Option CString) (hfail : (spacy_init env model_name s).1 = -1) :
    (spacy_init env model_name s).2.wrapper = s.wrapper ∧
    (s.wrapper = none →
      (spacy_init env model_name s).2.wrapper = none ∧
      (spacy_tokenize env2 text (spacy_init env model_name s).2).1
        = Outcome.returned { tokens := 0, count := 0 }) := by
  have hw : (spacy_init env model_name s).2.wrapper = s.wrapper := by
    rcases spacy_init_wrapper env model_name s with ⟨-, h2⟩ | ⟨h1, -⟩
    · exact h2
    · rw [h1] at hfail; exact absurd hfail (by decide)
  refine ⟨hw, fun hn => ⟨hw.trans hn, ?_⟩⟩
  rw [spacy_tokenize_none env2 text _ (hw.trans hn)]

/-- C3 amended, evaluated: `init("")` in a fresh process, then `tokenize`. -/
theorem C3_failed_init_keeps_session_witness :
    (spacy_init goodEnv (some "") State.initial).1 = -1 ∧
    (spacy_tokenize goodEnv (some sampleText)
        (spacy_init goodEnv (some "") State.initial).2).1
      = Outcome.returned { tokens := 0, count := 0 } :=
  ⟨by decide,
    ((C3_failed_init_keeps_session goodEnv goodEnv State.initial (some "") (some sampleText)
      (by decide)).2 rfl).2⟩

/-- C4: for every Ready session and non-null text for which the model yields
a non-empty token collection `t_0 .. t_(n-1)` (the text is valid UTF-8, so that
it reaches the model), and when allocation succeeds, `spacy_tokenize` returns
a non-null `TokenArray` with `count = n` whose `i`-th record holds exactly the
`text`, `lemma_`, `pos_`, `tag_`, `dep_` strings and the `is_stop`, `is_punct`
flags read from `t_i`, for every `i < n`: no token is dropped, duplicated or
reordered. -/
theorem C4_tokenize_records (env : Env) (s : State) (w : SpacyWrapper) (text : CString)
    (doc : Doc) (hw : s.wrapper = some w) (hvalid : validUTF8 text = true)
    (hcall : env.call w.nlp text = some doc)
    (hne : doc.tokens ≠ []) (halloc : ∀ k, env.malloc_ok k = true) :
    ∃ arr, (spacy_tokenize env (some text) s).1 = Outcome.returned arr ∧
      arr.tokens ≠ 0 ∧
      arr.count = doc.tokens.length ∧
      ∀ i (hi : i < doc.tokens.length), ∃ c,
        (spacy_tokenize env (some text) s).2.heap.tokenAt arr.tokens i = some c ∧
        (spacy_tokenize env (some text) s).2.heap.readStr c.text = some doc.tokens[i].text ∧
        (spacy_tokenize env (some text) s).2.heap.readStr c.lemma_
          = some doc.tokens[i].lemma_ ∧
        (spacy_tokenize env (some text) s).2.heap.readStr c.pos = some doc.tokens[i].pos_ ∧
        (spacy_tokenize env (some text) s).2.heap.readStr c.tag = some doc.tokens[i].tag_ ∧
        (spacy_tokenize env (some text) s).2.heap.readStr c.dep = some doc.tokens[i].dep_ ∧
        c.is_stop = doc.tokens[i].is_stop ∧ c.is_punct = doc.tokens[i].is_punct := by
  obtain ⟨arr, h0, h1, h2, h3⟩ :=
    spacy_tokenize_ok env s w text doc hw hvalid hcall hne halloc
  refine ⟨arr, h0, h1, h2, fun i hi => ?_⟩
  obtain ⟨c, hc, hh⟩ := h3 i hi
  exact ⟨c, hc, hh⟩

/-- C4, evaluated on the two-token sample document. -/
theorem C4_tokenize_records_witness :
    readyState.wrapper = some { nlp := 9, spacyModule := 7 } ∧
    validUTF8 sampleText = true ∧
    goodEnv.call 9 sampleText = some sampleDoc ∧
    ∃ arr, (spacy_tokenize goodEnv (some sampleText) readyState).1 = Outcome.returned arr ∧
      arr.tokens ≠ 0 ∧ arr.count = sampleDoc.tokens.length :=
  ⟨by decide, by decide, rfl,
    (C4_tokenize_records goodEnv readyState { nlp := 9, spacyModule := 7 } sampleText
      sampleDoc (by decide) (by decide) rfl (by decide) (fun _ => rfl)).imp
      (fun _ h => ⟨h.1, h.2.1, h.2.2.1⟩)⟩

/-- C5 as stated fails: the model reports an entity with `start_char = 2^31`
and `end_char = 2^31 + 1`; the record returned carries `start = -2^31` and
`end = -2^31 + 1`. -/
theorem C5_counterexample :
    readyState.wrapper = some { nlp := 9, spacyModule := 7 } ∧
    (farEntityEnv.call 9 sampleText).map (fun d => d.ents.map PyEnt.start_char)
      = some [2147483648] ∧
    (farEntityEnv.call 9 sampleText).map (fun d => d.ents.map PyEnt.end_char)
      = some [2147483649] ∧
    (spacy_extract_entities farEntityEnv (some sampleText) readyState).1
      = Outcome.returned { entities := 1, count := 1 } ∧
    ((spacy_extract_entities farEntityEnv (some sampleText) readyState).2.heap.entityAt 1 0).map
        CEntity.start = some (-2147483648) ∧
    ((spacy_extract_entities farEntityEnv (some sampleText) readyState).2.heap.entityAt 1 0).map
        CEntity.end_ = some (-2147483647) := by
  decide

/-- C5, amended: for every Ready session, every non-null text (valid UTF-8,
so that it reaches the model) and every entity the model reports, when
allocation succeeds the record returned by `spacy_extract_entities` at the
same position carries the entity's text and label, and its `start` (resp.
`end`) equals the model's `start_char` (resp. `end_char`) whenever that value
lies in the range of a C `int`, `-2^31 ≤ v < 2^31`; in general the record
holds the value after `PyLong_AsLong` and the conversion from `long` to
`int`. -/
theorem C5_entity_offsets_in_int_range (env : Env) (s : State) (w : SpacyWrapper)
    (text : CString) (doc : Doc) (hw : s.wrapper = some w)
    (hvalid : validUTF8 text = true)
    (hcall : env.call w.nlp text = some doc) (halloc : ∀ k, env.malloc_ok k = true) :
    ∃ arr, (spacy_extract_entities env (some text) s).1 = Outcome.returned arr ∧
      arr.count = doc.ents.length ∧
      ∀ i (hi : i < doc.ents.length), ∃ c,
        (spacy_extract_entities env (some text) s).2.heap.entityAt arr.entities i = some c ∧
        (spacy_extract_entities env (some text) s).2.heap.readStr c.text
          = some doc.ents[i].text ∧
        (spacy_extract_entities env (some text) s).2.heap.readStr c.label
          = some doc.ents[i].label_ ∧
        c.start = longToInt (PyLong_AsLong doc.ents[i].start_char) ∧
        c.end_ = longToInt (PyLong_AsLong doc.ents[i].end_char) ∧
        (-(2 ^ 31 : Int) ≤ doc.ents[i].start_char → doc.ents[i].start_char < (2 ^ 31 : Int) →
          c.start = doc.ents[i].start_char) ∧
        (-(2 ^ 31 : Int) ≤ doc.ents[i].end_char → doc.ents[i].end_char < (2 ^ 31 : Int) →
          c.end_ = doc.ents[i].end_char) := by
  obtain ⟨arr, h0, h1, h2⟩ :=
    spacy_extract_entities_ok env s w text doc hw hvalid hcall halloc
  refine ⟨arr, h0, h1, fun i hi => ?_⟩
  obtain ⟨c, hc, ht, hl, hs, he⟩ := h2 i hi
  refine ⟨c, hc, ht, hl, hs, he, fun a b => ?_, fun a b => ?_⟩
  · rw [hs]; exact longToInt_PyLong_AsLong _ a b
  · rw [he]; exact longToInt_PyLong_AsLong _ a b

/-- C5 amended, evaluated on the sample document (entity "Apple", 0 to 5). -/
theorem C5_entity_offsets_in_int_range_witness :
    readyState.wrapper = some { nlp := 9, spacyModule := 7 } ∧
    validUTF8 sampleText = true ∧
    goodEnv.call 9 sampleText = some sampleDoc ∧
    ∃ arr, (spacy_extract_entities goodEnv (some sampleText) readyState).1
        = Outcome.returned arr ∧ arr.count = sampleDoc.ents.length :=
  ⟨by decide, by decide, rfl,
    (C5_entity_offsets_in_int_range goodEnv readyState { nlp := 9, spacyModule := 7 }
      sampleText sampleDoc (by decide) (by decide) rfl (fun _ => rfl)).imp
      (fun _ h => ⟨h.1, h.2.1⟩)⟩

/-- C6, the code against the claim: on an open session, a non-null text that
is not valid UTF-8 (the single byte `0xFF`) makes `PyUnicode_FromString` return
`NULL`; the model is then called with no argument and fails, `PyErr_Print`
reports it, and `Py_DECREF(pyText)` dereferences the null pointer: none of
the three queries returns, where the claim says each returns the empty array
(null pointer, count 0) and leaves the session Ready.  The trace ends at that
`Py_DECREF`, the lock still held.  On a valid text the same failing model call
is soft, as claimed: each query returns the empty array, the session stays,
and it answers the next query of each kind. -/
theorem C6_null_text_object_is_dereferenced :
    readyState.wrapper = some { nlp := 9, spacyModule := 7 } ∧
    validUTF8 badText = false ∧
    callModel goodEnv 9 (CString.PyUnicode_FromString badText) = none ∧
    (spacy_tokenize goodEnv (some badText) readyState).1 = Outcome.segfault ∧
    (spacy_extract_entities goodEnv (some badText) readyState).1 = Outcome.segfault ∧
    (spacy_split_sentences goodEnv (some badText) readyState).1 = Outcome.segfault ∧
    (spacy_tokenize goodEnv (some badText) readyState).2.trace
      = readyState.trace ++
          [ readWrapper, readWrapper, lock, py (PyUnicode_FromString_text badText),
            py (PyObject_CallFunctionObjArgs 9), py PyErr_Print,
            py (Py_DECREF "pyText") ] ∧
    validUTF8 sampleText = true ∧
    callModel failingCallEnv 9 (CString.PyUnicode_FromString sampleText) = none ∧
    (spacy_tokenize failingCallEnv (some sampleText) readyState).1
      = Outcome.returned { tokens := 0, count := 0 } ∧
    (spacy_extract_entities failingCallEnv (some sampleText) readyState).1
      = Outcome.returned { entities := 0, count := 0 } ∧
    (spacy_split_sentences failingCallEnv (some sampleText) readyState).1
      = Outcome.returned { sentences := 0, count := 0 } ∧
    (spacy_tokenize failingCallEnv (some sampleText) readyState).2.wrapper
      = readyState.wrapper ∧
    (spacy_tokenize goodEnv (some sampleText)
        (spacy_tokenize failingCallEnv (some sampleText) readyState).2).1
      = Outcome.returned { tokens := 1, count := 2 } ∧
    (spacy_extract_entities goodEnv (some sampleText)
        (spacy_extract_entities failingCallEnv (some sampleText) readyState).2).1
      = Outcome.returned { entities := 1, count := 1 } ∧
    (spacy_split_sentences goodEnv (some sampleText)
        (spacy_split_sentences failingCallEnv (some sampleText) readyState).2).1
      = Outcome.returned { sentences := 1, count := 1 } := by
  decide

/-- C7: `free_token_array`, `free_entity_array` and `free_sentence_array` are
idempotent.  For every record array (a null pointer comes with count 0, as in
every array the queries return), one call leaves it as (null pointer, count
0); a call on an already-freed array, on a never-populated (null, 0) array, or
with a null array pointer passes nothing to `free` and changes neither the
array nor the heap, so calling the free function twice has the same effect as
calling it once. -/
theorem C7_free_is_idempotent (h : Heap) (ta : TokenArray) (ea : EntityArray)
    (sa : SentenceArray) (hta : ta.tokens = 0 → ta.count = 0)
    (hea : ea.entities = 0 → ea.count = 0) (hsa : sa.sentences = 0 → sa.count = 0) :
    ((free_token_array (some ta) h).1 = some { tokens := 0, count := 0 } ∧
      (free_entity_array (some ea) h).1 = some { entities := 0, count := 0 } ∧
      (free_sentence_array (some sa) h).1 = some { sentences := 0, count := 0 }) ∧
    ((∀ x, free_token_array (free_token_array x h).1 (free_token_array x h).2
          = free_token_array x h) ∧
      (∀ x, free_entity_array (free_entity_array x h).1 (free_entity_array x h).2
          = free_entity_array x h) ∧
      (∀ x, free_sentence_array (free_sentence_array x h).1 (free_sentence_array x h).2
          = free_sentence_array x h)) ∧
    (free_token_array (some { tokens := 0, count := 0 }) h
        = (some { tokens := 0, count := 0 }, h) ∧
      free_entity_array (some { entities := 0, count := 0 }) h
        = (some { entities := 0, count := 0 }, h) ∧
      free_sentence_array (some { sentences := 0, count := 0 }) h
        = (some { sentences := 0, count := 0 }, h)) ∧
    (free_token_array none h = (none, h) ∧ free_entity_array none h = (none, h) ∧
      free_sentence_array none h = (none, h)) ∧
    (∀ env text s,
      (∀ arr, (spacy_tokenize env text s).1 = Outcome.returned arr →
        arr.tokens = 0 → arr.count = 0) ∧
      (∀ arr, (spacy_extract_entities env text s).1 = Outcome.returned arr →
        arr.entities = 0 → arr.count = 0) ∧
      (∀ arr, (spacy_split_sentences env text s).1 = Outcome.returned arr →
        arr.sentences = 0 → arr.count = 0)) := by
  refine ⟨⟨?_, ?_, ?_⟩,
    ⟨fun x => free_token_array_twice x h, fun x => free_entity_array_twice x h,
      fun x => free_sentence_array_twice x h⟩,
    ⟨rfl, rfl, rfl⟩, ⟨rfl, rfl, rfl⟩,
    fun env text s => ⟨spacy_tokenize_wf env text s, spacy_extract_entities_wf env text s,
      spacy_split_sentences_wf env text s⟩⟩
  · unfold free_token_array
    by_cases hp : ta.tokens = 0
    · have hc := hta hp
      cases ta
      simp_all
    · simp [hp]
  · unfold free_entity_array
    by_cases hp : ea.entities = 0
    · have hc := hea hp
      cases ea
      simp_all
    · simp [hp]
  · unfold free_sentence_array
    by_cases hp : sa.sentences = 0
    · have hc := hsa hp
      cases sa
      simp_all
    · simp [hp]

/-- C7, evaluated: the array returned for the sample text is freed once (all
eleven allocations are released), and a second call releases nothing. -/
theorem C7_free_is_idempotent_witness :
    (spacy_tokenize goodEnv (some sampleText) readyState).1
      = Outcome.returned { tokens := 1, count := 2 } ∧
    (free_token_array (some { tokens := 1, count := 2 })
        (spacy_tokenize goodEnv (some sampleText) readyState).2.heap).1
      = some { tokens := 0, count := 0 } ∧
    (free_token_array (some { tokens := 1, count := 2 })
        (spacy_tokenize goodEnv (some sampleText) readyState).2.heap).2.freed
      = [2, 3, 4, 5, 6, 7, 8, 9, 10, 11, 1] ∧
    free_token_array (some { tokens := 0, count := 0 })
        (free_token_array (some { tokens := 1, count := 2 })
          (spacy_tokenize goodEnv (some sampleText) readyState).2.heap).2
      = (some { tokens := 0, count := 0 },
          (free_token_array (some { tokens := 1, count := 2 })
            (spacy_tokenize goodEnv (some sampleText) readyState).2.heap).2) :=
  ⟨by decide,
    (C7_free_is_idempotent (spacy_tokenize goodEnv (some sampleText) readyState).2.heap
      { tokens := 1, count := 2 }
      { entities := 0, count := 0 } { sentences := 0, count := 0 }
      (by decide) (fun _ => rfl) (fun _ => rfl)).1.1,
    by decide,
    (C7_free_is_idempotent _ { tokens := 0, count := 0 }
      { entities := 0, count := 0 } { sentences := 0, count := 0 }
      (fun _ => rfl) (fun _ => rfl) (fun _ => rfl)).2.2.1.1⟩

/-- C8 as stated fails: with a session and a null text each query returns the
empty array but writes nothing to `std::cerr`. -/
theorem C8_counterexample :
    readyState.wrapper = some { nlp := 9, spacyModule := 7 } ∧
    (spacy_tokenize goodEnv none readyState).1
      = Outcome.returned { tokens := 0, count := 0 } ∧
    (spacy_tokenize goodEnv none readyState).2.cerr = readyState.cerr ∧
    (spacy_extract_entities goodEnv none readyState).2.cerr = readyState.cerr ∧
    (spacy_split_sentences goodEnv none readyState).2.cerr = readyState.cerr := by
  decide

/-- C8, amended: for every state, each of `spacy_tokenize`,
`spacy_extract_entities` and `spacy_split_sentences` returns the empty array
whenever the system is uninitialized or the text argument is null; it writes
the line "Error: Spacy not initialized" to `std::cerr` when the system is
uninitialized, and writes nothing when a session exists and the text is
null. -/
theorem C8_empty_array_on_uninitialized_or_null (env : Env) (s : State)
    (text : Option CString) (h : s.wrapper = none ∨ text = none) :
    ((spacy_tokenize env text s).1 = Outcome.returned { tokens := 0, count := 0 } ∧
      (spacy_extract_entities env text s).1
        = Outcome.returned { entities := 0, count := 0 } ∧
      (spacy_split_sentences env text s).1
        = Outcome.returned { sentences := 0, count := 0 }) ∧
    (s.wrapper = none →
      (spacy_tokenize env text s).2.cerr = s.cerr ++ ["Error: Spacy not initialized"] ∧
      (spacy_extract_entities env text s).2.cerr
        = s.cerr ++ ["Error: Spacy not initialized"] ∧
      (spacy_split_sentences env text s).2.cerr
        = s.cerr ++ ["Error: Spacy not initialized"]) ∧
    (s.wrapper ≠ none →
      (spacy_tokenize env text s).2.cerr = s.cerr ∧
      (spacy_extract_entities env text s).2.cerr = s.cerr ∧
      (spacy_split_sentences env text s).2.cerr = s.cerr) := by
  cases hw : s.wrapper with
  | none =>
    rw [spacy_tokenize_none env text s hw, spacy_extract_entities_none env text s hw,
      spacy_split_sentences_none env text s hw]
    simp
  | some w =>
    have ht : text = none := by
      rcases h with h | h
      · rw [hw] at h; exact absurd h (by simp)
      · exact h
    subst ht
    rw [spacy_tokenize_null env s w hw, spacy_extract_entities_null env s w hw,
      spacy_split_sentences_null env s w hw]
    simp

/-- C8 amended, evaluated in a fresh process with a non-null text. -/
theorem C8_empty_array_on_uninitialized_or_null_witness :
    State.initial.wrapper = none ∧
    (spacy_tokenize goodEnv (some sampleText) State.initial).1
      = Outcome.returned { tokens := 0, count := 0 } ∧
    (spacy_tokenize goodEnv (some sampleText) State.initial).2.cerr
      = ["Error: Spacy not initialized"] :=
  ⟨rfl,
    (C8_empty_array_on_uninitialized_or_null goodEnv State.initial (some sampleText)
      (Or.inl rfl)).1.1,
    ((C8_empty_array_on_uninitialized_or_null goodEnv State.initial (some sampleText)
      (Or.inl rfl)).2.1 rfl).1⟩

/-- C9 as stated fails: when the module `sys` cannot be imported, the first
`spacy_init` that reaches the host boots the interpreter and sets the flag but
appends no search path, and the next `spacy_init`, which succeeds and opens a
session, does not append them either. -/
theorem C9_counterexample :
    bootCount (step noSysEnv (Op.init (some "en_core_web_sm")) State.initial).trace = 1 ∧
    (step noSysEnv (Op.init (some "en_core_web_sm")) State.initial).python_initialized
      = true ∧
    appendedPaths (step noSysEnv (Op.init (some "en_core_web_sm")) State.initial).trace
      = [] ∧
    appendedPaths
        (run [(noSysEnv, Op.init (some "en_core_web_sm")),
              (goodEnv, Op.init (some "en_core_web_sm"))] State.initial).trace = [] ∧
    (run [(noSysEnv, Op.init (some "en_core_web_sm")),
          (goodEnv, Op.init (some "en_core_web_sm"))] State.initial).wrapper
      = some { nlp := 9, spacyModule := 7 } := by
  decide

/-- C9, amended: over every sequence of `spacy_init`, query and
`spacy_cleanup` calls the interpreter is booted at most once, by the first
`spacy_init` that gets past the model-name check (the flag is set exactly when
some call so far did) and by no later call; the
fixed ordered fallback search paths (current directory first, then the
installation paths) are appended only within that same call, and only if `sys`
and `sys.path` can be obtained there: otherwise no call ever appends them.
`spacy_cleanup` never resets the host-booted flag, so an init after cleanup
does not boot again. -/
theorem C9_host_started_at_most_once (calls : List (Env × Op)) (s : State) (env : Env)
    (op : Op) (hs : s = run calls State.initial) :
    bootCount s.trace ≤ 1 ∧
    (s.python_initialized = true ↔ bootCount s.trace = 1) ∧
    s.python_initialized = calls.any (fun c => c.2.reachesHost) ∧
    (appendedPaths s.trace = [] ∨ appendedPaths s.trace = fallbackPaths) ∧
    (s.python_initialized = true →
      (step env op s).python_initialized = true ∧
      bootCount (step env op s).trace = bootCount s.trace ∧
      appendedPaths (step env op s).trace = appendedPaths s.trace) ∧
    (s.python_initialized = false → op.reachesHost = false →
      (step env op s).python_initialized = false ∧
      bootCount (step env op s).trace = 0 ∧
      appendedPaths (step env op s).trace = []) ∧
    (s.python_initialized = false → op.reachesHost = true →
      (step env op s).python_initialized = true ∧
      bootCount (step env op s).trace = 1 ∧
      appendedPaths (step env op s).trace
        = if env.import_sys = true ∧ env.sys_path = true then fallbackPaths else []) ∧
    (spacy_cleanup s).python_initialized = s.python_initialized ∧
    (spacy_cleanup s).wrapper = none := by
  have hinv : HostInv s := hs ▸ hostInv_run calls _ hostInv_initial
  obtain ⟨h1, h2, h3⟩ := hinv
  refine ⟨?_, ?_, ?_, h3, ?_, ?_, ?_, (spacy_cleanup_spec s).2.1, (spacy_cleanup_spec s).1⟩
  · cases hf : s.python_initialized with
    | true => rw [h1 hf]
    | false => rw [(h2 hf).1]; omega
  · constructor
    · exact h1
    · intro hb
      cases hf : s.python_initialized with
      | true => rfl
      | false => rw [(h2 hf).1] at hb; omega
  · rw [hs, run_flag]
    rfl
  · intro hf
    rw [step_boot, step_paths, step_flag]
    simp [hf]
  · intro hf hr
    rw [step_boot, step_paths, step_flag]
    simp [hf, hr, (h2 hf).1, (h2 hf).2]
  · intro hf hr
    rw [step_boot, step_paths, step_flag]
    simp [hf, hr, (h2 hf).1, (h2 hf).2]

/-- C9 amended, evaluated: init, cleanup, then init again; the second init
finds the flag set and adds no boot. -/
theorem C9_host_started_at_most_once_witness :
    bootCount
        (run [(goodEnv, Op.init (some "en_core_web_sm")), (goodEnv, Op.cleanup)]
          State.initial).trace ≤ 1 ∧
    ((run [(goodEnv, Op.init (some "en_core_web_sm")), (goodEnv, Op.cleanup)]
          State.initial).python_initialized = true →
      bootCount
          (step goodEnv (Op.init (some "en_core_web_sm"))
            (run [(goodEnv, Op.init (some "en_core_web_sm")), (goodEnv, Op.cleanup)]
              State.initial)).trace
        = bootCount
            (run [(goodEnv, Op.init (some "en_core_web_sm")), (goodEnv, Op.cleanup)]
              State.initial).trace) :=
  ⟨(C9_host_started_at_most_once
      [(goodEnv, Op.init (some "en_core_web_sm")), (goodEnv, Op.cleanup)] _ goodEnv
      (Op.init (some "en_core_web_sm")) rfl).1,
    fun hf =>
      ((C9_host_started_at_most_once
        [(goodEnv, Op.init (some "en_core_web_sm")), (goodEnv, Op.cleanup)] _ goodEnv
        (Op.init (some "en_core_web_sm")) rfl).2.2.2.2.1 hf).2.1⟩

/-- C10, the code against the claim: `spacy_cleanup` on an open session
writes the global `wrapper` and releases the model and library references
(`Py_DECREF(nlp)`, `Py_DECREF(spacyModule)`) without ever taking
`python_mutex`, and the same happens to the replaced session when `spacy_init`
succeeds a second time; every query reads `wrapper` before any lock is taken.
The interpreter calls of the constructor and of the query member functions,
in contrast, all happen under the lock. -/
theorem C10_session_released_outside_lock :
    (spacy_cleanup readyState).trace
      = readyState.trace ++
          [writeWrapper, py (Py_DECREF "nlp"), py (Py_DECREF "spacyModule")] ∧
    pyUnderLock false readyState.trace = true ∧
    pyUnderLock false (spacy_cleanup readyState).trace = false ∧
    pyUnderLock false (spacy_init goodEnv (some "en_core_web_sm") readyState).2.trace
      = false ∧
    pyUnderLock false (spacy_tokenize goodEnv (some sampleText) readyState).2.trace = true ∧
    (spacy_tokenize goodEnv none readyState).2.trace = readyState.trace ++ [readWrapper] ∧
    lockDiscipline false [readWrapper] = false ∧
    lockDiscipline false readyState.trace = false := by
  decide


end GoSpacy
